import Mathlib

/-!
Verification of the jelly-fpga-client library (src/lib.rs).

The library is a gRPC client: every public method builds one request value,
hands it to the transport, and decodes the response into an
`Except Status` result (the Rust `Result<_, tonic::Status>`).  We embed each
method as a pure function parameterised by the transport, modelled as a
function from the request type to `Except Status` of the response type.
Machine integers are modelled as `Nat` (unsigned) and `Int` (signed), with
the Rust `as` casts made explicit as truncation / reinterpretation
functions.  The chunk-producing stream inside `upload_firmware` is modelled
both as the one-step `DataStream.poll_next` function and as the list of all
chunks it produces (`chunksFrom`).
-/

namespace JellyFpga

/-- Transport-level RPC error, modelling tonic Status: a status code and a message. -/
structure Status where
  code : Nat
  message : String
deriving DecidableEq

/-- Models tonic Status internal (gRPC status code 13) as built by `Status::internal(msg)`. -/
def Status.internal (msg : String) : Status :=
  { code := 13, message := msg }

/-- Local file-system error, modelling std::io::Error as surfaced by std::fs::read. -/
structure IoError where
  message : String
deriving DecidableEq

/-- IEEE-754 single-precision payloads are never inspected by the client, only
carried; we model them opaquely as raw bit patterns. -/
abbrev F32Bits := Nat

/-- IEEE-754 double-precision payloads, carried opaquely as raw bit patterns. -/
abbrev F64Bits := Nat

/- Rust integer casts.  Widening casts (u8 to u64, i8 to i64, ...) preserve the
value, so they are identities on the mathematical carrier; narrowing casts
keep the low bytes of the twos-complement bit pattern. -/

/-- Rust cast `x as u64` for `x : u8` (value preserving). -/
def u8_as_u64 (x : Nat) : Nat := x

/-- Rust cast `x as u64` for `x : u16` (value preserving). -/
def u16_as_u64 (x : Nat) : Nat := x

/-- Rust cast `x as u64` for `x : u32` (value preserving). -/
def u32_as_u64 (x : Nat) : Nat := x

/-- Rust cast `x as i64` for `x : i8` (value preserving). -/
def i8_as_i64 (x : Int) : Int := x

/-- Rust cast `x as i64` for `x : i16` (value preserving). -/
def i16_as_i64 (x : Int) : Int := x

/-- Rust cast `x as i64` for `x : i32` (value preserving). -/
def i32_as_i64 (x : Int) : Int := x

/-- Rust cast `x as u8` for `x : u64`: keep the low byte. -/
def u64_as_u8 (x : Nat) : Nat := x % 2 ^ 8

/-- Rust cast `x as u16` for `x : u64`: keep the low two bytes. -/
def u64_as_u16 (x : Nat) : Nat := x % 2 ^ 16

/-- Rust cast `x as u32` for `x : u64`: keep the low four bytes. -/
def u64_as_u32 (x : Nat) : Nat := x % 2 ^ 32

/-- Rust cast `x as i8` for `x : i64`: keep the low byte of the twos-complement
pattern and reinterpret it as a signed value. -/
def i64_as_i8 (x : Int) : Int :=
  if x % 2 ^ 8 < 2 ^ 7 then x % 2 ^ 8 else x % 2 ^ 8 - 2 ^ 8

/-- Rust cast `x as i16` for `x : i64`: low two bytes, reinterpreted signed. -/
def i64_as_i16 (x : Int) : Int :=
  if x % 2 ^ 16 < 2 ^ 15 then x % 2 ^ 16 else x % 2 ^ 16 - 2 ^ 16

/-- Rust cast `x as i32` for `x : i64`: low four bytes, reinterpreted signed. -/
def i64_as_i32 (x : Int) : Int :=
  if x % 2 ^ 32 < 2 ^ 31 then x % 2 ^ 32 else x % 2 ^ 32 - 2 ^ 32

/- Wire messages (generated from the jelly_fpga_control proto schema; fields
as used by src/lib.rs). -/

/-- Wire request of the load RPC. -/
structure LoadRequest where
  name : String
deriving DecidableEq

/-- Wire response of the load RPC (result flag and i32 slot). -/
structure LoadResponse where
  result : Bool
  slot : Int
deriving DecidableEq

/-- Wire request of the unload RPC (i32 slot). -/
structure UnloadRequest where
  slot : Int
deriving DecidableEq

/-- Wire response of the unload RPC. -/
structure UnloadResponse where
  result : Bool
deriving DecidableEq

/-- Wire request frame of the upload_firmware streaming RPC. -/
structure UploadFirmwareRequest where
  name : String
  data : List Nat
deriving DecidableEq

/-- Wire response of the upload_firmware streaming RPC. -/
structure UploadFirmwareResponse where
  result : Bool
deriving DecidableEq

/-- Wire request of write_mem_u (u32 id, u64 offset, u64 data, u64 size). -/
structure WriteMemURequest where
  id : Nat
  offset : Nat
  data : Nat
  size : Nat
deriving DecidableEq

/-- Wire response of write_mem_u. -/
structure WriteMemUResponse where
  result : Bool
deriving DecidableEq

/-- Wire request of write_mem_i (i64 data). -/
structure WriteMemIRequest where
  id : Nat
  offset : Nat
  data : Int
  size : Nat
deriving DecidableEq

/-- Wire response of write_mem_i. -/
structure WriteMemIResponse where
  result : Bool
deriving DecidableEq

/-- Wire request shared by all memory reads (u32 id, u64 offset, u64 size). -/
structure ReadMemRequest where
  id : Nat
  offset : Nat
  size : Nat
deriving DecidableEq

/-- Wire response of read_mem_u (u64 data). -/
structure ReadMemUResponse where
  result : Bool
  data : Nat
deriving DecidableEq

/-- Wire response of read_mem_i (i64 data). -/
structure ReadMemIResponse where
  result : Bool
  data : Int
deriving DecidableEq

/-- Wire response of read_mem_f32. -/
structure ReadMemF32Response where
  result : Bool
  data : F32Bits
deriving DecidableEq

/-- Wire response of read_mem_f64. -/
structure ReadMemF64Response where
  result : Bool
  data : F64Bits
deriving DecidableEq

/-- Wire request of write_mem_f32 (no size field: the width is fixed by the variant). -/
structure WriteMemF32Request where
  id : Nat
  offset : Nat
  data : F32Bits
deriving DecidableEq

/-- Wire response of write_mem_f32. -/
structure WriteMemF32Response where
  result : Bool
deriving DecidableEq

/-- Wire request of write_mem_f64 (no size field: the width is fixed by the variant). -/
structure WriteMemF64Request where
  id : Nat
  offset : Nat
  data : F64Bits
deriving DecidableEq

/-- Wire response of write_mem_f64. -/
structure WriteMemF64Response where
  result : Bool
deriving DecidableEq

/-- Wire request of write_reg_u (u32 id, u64 reg, u64 data, u64 size). -/
structure WriteRegURequest where
  id : Nat
  reg : Nat
  data : Nat
  size : Nat
deriving DecidableEq

/-- Wire response of write_reg_u. -/
structure WriteRegUResponse where
  result : Bool
deriving DecidableEq

/-- Wire request of write_reg_i (i64 data). -/
structure WriteRegIRequest where
  id : Nat
  reg : Nat
  data : Int
  size : Nat
deriving DecidableEq

/-- Wire response of write_reg_i. -/
structure WriteRegIResponse where
  result : Bool
deriving DecidableEq

/-- Wire request shared by all register reads (u32 id, u64 reg, u64 size). -/
structure ReadRegRequest where
  id : Nat
  reg : Nat
  size : Nat
deriving DecidableEq

/-- Wire response of read_reg_u (u64 data). -/
structure ReadRegUResponse where
  result : Bool
  data : Nat
deriving DecidableEq

/-- Wire response of read_reg_i (i64 data). -/
structure ReadRegIResponse where
  result : Bool
  data : Int
deriving DecidableEq

/-- Wire response of read_reg_f32. -/
structure ReadRegF32Response where
  result : Bool
  data : F32Bits
deriving DecidableEq

/-- Wire response of read_reg_f64. -/
structure ReadRegF64Response where
  result : Bool
  data : F64Bits
deriving DecidableEq

/-- Wire request of write_reg_f32 (no size field). -/
structure WriteRegF32Request where
  id : Nat
  reg : Nat
  data : F32Bits
deriving DecidableEq

/-- Wire response of write_reg_f32. -/
structure WriteRegF32Response where
  result : Bool
deriving DecidableEq

/-- Wire request of write_reg_f64 (no size field). -/
structure WriteRegF64Request where
  id : Nat
  reg : Nat
  data : F64Bits
deriving DecidableEq

/-- Wire response of write_reg_f64. -/
structure WriteRegF64Response where
  result : Bool
deriving DecidableEq

/-- Wire request of mem_copy_to (u32 id, u64 offset, bytes data). -/
structure MemCopyToRequest where
  id : Nat
  offset : Nat
  data : List Nat
deriving DecidableEq

/-- Wire response of mem_copy_to. -/
structure MemCopyToResponse where
  result : Bool
deriving DecidableEq

/-- Wire request of mem_copy_from (u32 id, u64 offset, u64 size). -/
structure MemCopyFromRequest where
  id : Nat
  offset : Nat
  size : Nat
deriving DecidableEq

/-- Wire response of mem_copy_from (bytes data). -/
structure MemCopyFromResponse where
  result : Bool
  data : List Nat
deriving DecidableEq

/- Client methods.  Each is the pure content of the corresponding async fn on
JellyFpgaClient: build the request, apply the transport (`?` propagates a
transport error unchanged), and unpack the response fields. -/

/-- Client method load: sends a LoadRequest and returns (result, slot). -/
def load (t : LoadRequest → Except Status LoadResponse) (name : String) :
    Except Status (Bool × Int) :=
  (t { name := name }).map (fun inner => (inner.result, inner.slot))

/-- Client method unload: sends an UnloadRequest for the given slot. -/
def unload (t : UnloadRequest → Except Status UnloadResponse) (slot : Int) :
    Except Status Bool :=
  (t { slot := slot }).map UnloadResponse.result

/-- Client method unload_all: delegates to unload with slot 0. -/
def unload_all (t : UnloadRequest → Except Status UnloadResponse) :
    Except Status Bool :=
  unload t 0

/-- The private DataStream state inside upload_firmware. -/
structure DataStream where
  name : String
  data : List Nat
  chunk_size : Nat
  offset : Nat
deriving DecidableEq

/-- One poll of the DataStream (Stream::poll_next): returns none once the
offset has reached the end of the data, otherwise yields the next chunk
`data[offset..min(offset+chunk_size, len)]` and advances the offset. -/
def DataStream.poll_next (s : DataStream) :
    Option (UploadFirmwareRequest × DataStream) :=
  if s.offset ≥ s.data.length then
    none
  else
    some ({ name := s.name,
            data := (s.data.drop s.offset).take
              (min (s.offset + s.chunk_size) s.data.length - s.offset) },
          { s with offset := min (s.offset + s.chunk_size) s.data.length })

/-- The full sequence of chunk frames the DataStream yields, starting from the
given offset: repeatedly take at most `cs` bytes until the data is exhausted.
The positivity hypothesis on the chunk size (2 MiB at the only construction
site) makes the production terminating. -/
def chunksFrom (nm : String) (data : List Nat) (cs : Nat) (hcs : 0 < cs)
    (offset : Nat) : List UploadFirmwareRequest :=
  if h : offset < data.length then
    { name := nm,
      data := (data.drop offset).take (min (offset + cs) data.length - offset) }
      :: chunksFrom nm data cs hcs (min (offset + cs) data.length)
  else []
termination_by data.length - offset
decreasing_by
  omega

/-- The chunk sequence transmitted by upload_firmware for a given name and
payload: the DataStream is constructed with chunk_size 2 * 1024 * 1024 and
offset 0. -/
def upload_firmware_chunks (name : String) (data : List Nat) :
    List UploadFirmwareRequest :=
  chunksFrom name data (2 * 1024 * 1024) (by norm_num) 0

/-- Client method upload_firmware: streams the chunk sequence over one
logical request and unpacks the single aggregate response. -/
def upload_firmware
    (t : List UploadFirmwareRequest → Except Status UploadFirmwareResponse)
    (name : String) (data : List Nat) : Except Status Bool :=
  (t (upload_firmware_chunks name data)).map UploadFirmwareResponse.result

/-- Client method upload_firmware_file: read the whole file, mapping a read
failure to Status.internal, then upload the contents.  The file system is
modelled as a function from paths to read outcomes. -/
def upload_firmware_file (fs : String → Except IoError (List Nat))
    (t : List UploadFirmwareRequest → Except Status UploadFirmwareResponse)
    (name file_path : String) : Except Status Bool :=
  match fs file_path with
  | .error e =>
      .error (Status.internal ("Failed to read file " ++ file_path ++ ": " ++ e.message))
  | .ok data => upload_firmware t name data

/-- Client method write_mem_u: generic unsigned memory write at an explicit width. -/
def write_mem_u (t : WriteMemURequest → Except Status WriteMemUResponse)
    (id offset data size : Nat) : Except Status Bool :=
  (t { id := id, offset := offset, data := data, size := size }).map
    WriteMemUResponse.result

/-- Client convenience method write_mem_u8. -/
def write_mem_u8 (t : WriteMemURequest → Except Status WriteMemUResponse)
    (id offset data : Nat) : Except Status Bool :=
  write_mem_u t id offset (u8_as_u64 data) 1

/-- Client convenience method write_mem_u16. -/
def write_mem_u16 (t : WriteMemURequest → Except Status WriteMemUResponse)
    (id offset data : Nat) : Except Status Bool :=
  write_mem_u t id offset (u16_as_u64 data) 2

/-- Client convenience method write_mem_u32. -/
def write_mem_u32 (t : WriteMemURequest → Except Status WriteMemUResponse)
    (id offset data : Nat) : Except Status Bool :=
  write_mem_u t id offset (u32_as_u64 data) 4

/-- Client convenience method write_mem_u64. -/
def write_mem_u64 (t : WriteMemURequest → Except Status WriteMemUResponse)
    (id offset data : Nat) : Except Status Bool :=
  write_mem_u t id offset data 8

/-- Client method write_mem_i: generic signed memory write at an explicit width. -/
def write_mem_i (t : WriteMemIRequest → Except Status WriteMemIResponse)
    (id offset : Nat) (data : Int) (size : Nat) : Except Status Bool :=
  (t { id := id, offset := offset, data := data, size := size }).map
    WriteMemIResponse.result

/-- Client convenience method write_mem_i8. -/
def write_mem_i8 (t : WriteMemIRequest → Except Status WriteMemIResponse)
    (id offset : Nat) (data : Int) : Except Status Bool :=
  write_mem_i t id offset (i8_as_i64 data) 1

/-- Client convenience method write_mem_i16. -/
def write_mem_i16 (t : WriteMemIRequest → Except Status WriteMemIResponse)
    (id offset : Nat) (data : Int) : Except Status Bool :=
  write_mem_i t id offset (i16_as_i64 data) 2

/-- Client convenience method write_mem_i32. -/
def write_mem_i32 (t : WriteMemIRequest → Except Status WriteMemIResponse)
    (id offset : Nat) (data : Int) : Except Status Bool :=
  write_mem_i t id offset (i32_as_i64 data) 4

/-- Client convenience method write_mem_i64. -/
def write_mem_i64 (t : WriteMemIRequest → Except Status WriteMemIResponse)
    (id offset : Nat) (data : Int) : Except Status Bool :=
  write_mem_i t id offset data 8

/-- Client method read_mem_u: generic unsigned memory read at an explicit width. -/
def read_mem_u (t : ReadMemRequest → Except Status ReadMemUResponse)
    (id offset size : Nat) : Except Status (Bool × Nat) :=
  (t { id := id, offset := offset, size := size }).map
    (fun inner => (inner.result, inner.data))

/-- Client convenience method read_mem_u8: read at width 1 and narrow the u64. -/
def read_mem_u8 (t : ReadMemRequest → Except Status ReadMemUResponse)
    (id offset : Nat) : Except Status (Bool × Nat) :=
  (read_mem_u t id offset 1).map (fun p => (p.1, u64_as_u8 p.2))

/-- Client convenience method read_mem_u16. -/
def read_mem_u16 (t : ReadMemRequest → Except Status ReadMemUResponse)
    (id offset : Nat) : Except Status (Bool × Nat) :=
  (read_mem_u t id offset 2).map (fun p => (p.1, u64_as_u16 p.2))

/-- Client convenience method read_mem_u32. -/
def read_mem_u32 (t : ReadMemRequest → Except Status ReadMemUResponse)
    (id offset : Nat) : Except Status (Bool × Nat) :=
  (read_mem_u t id offset 4).map (fun p => (p.1, u64_as_u32 p.2))

/-- Client convenience method read_mem_u64: no narrowing is needed. -/
def read_mem_u64 (t : ReadMemRequest → Except Status ReadMemUResponse)
    (id offset : Nat) : Except Status (Bool × Nat) :=
  read_mem_u t id offset 8

/-- Client method read_mem_i: generic signed memory read at an explicit width. -/
def read_mem_i (t : ReadMemRequest → Except Status ReadMemIResponse)
    (id offset size : Nat) : Except Status (Bool × Int) :=
  (t { id := id, offset := offset, size := size }).map
    (fun inner => (inner.result, inner.data))

/-- Client convenience method read_mem_i8: read at width 1 and narrow the i64. -/
def read_mem_i8 (t : ReadMemRequest → Except Status ReadMemIResponse)
    (id offset : Nat) : Except Status (Bool × Int) :=
  (read_mem_i t id offset 1).map (fun p => (p.1, i64_as_i8 p.2))

/-- Client convenience method read_mem_i16. -/
def read_mem_i16 (t : ReadMemRequest → Except Status ReadMemIResponse)
    (id offset : Nat) : Except Status (Bool × Int) :=
  (read_mem_i t id offset 2).map (fun p => (p.1, i64_as_i16 p.2))

/-- Client convenience method read_mem_i32. -/
def read_mem_i32 (t : ReadMemRequest → Except Status ReadMemIResponse)
    (id offset : Nat) : Except Status (Bool × Int) :=
  (read_mem_i t id offset 4).map (fun p => (p.1, i64_as_i32 p.2))

/-- Client convenience method read_mem_i64: no narrowing is needed. -/
def read_mem_i64 (t : ReadMemRequest → Except Status ReadMemIResponse)
    (id offset : Nat) : Except Status (Bool × Int) :=
  read_mem_i t id offset 8

/-- Client method write_reg_u: generic unsigned register write at an explicit width. -/
def write_reg_u (t : WriteRegURequest → Except Status WriteRegUResponse)
    (id reg data size : Nat) : Except Status Bool :=
  (t { id := id, reg := reg, data := data, size := size }).map
    WriteRegUResponse.result

/-- Client convenience method write_reg_u8. -/
def write_reg_u8 (t : WriteRegURequest → Except Status WriteRegUResponse)
    (id reg data : Nat) : Except Status Bool :=
  write_reg_u t id reg (u8_as_u64 data) 1

/-- Client convenience method write_reg_u16. -/
def write_reg_u16 (t : WriteRegURequest → Except Status WriteRegUResponse)
    (id reg data : Nat) : Except Status Bool :=
  write_reg_u t id reg (u16_as_u64 data) 2

/-- Client convenience method write_reg_u32. -/
def write_reg_u32 (t : WriteRegURequest → Except Status WriteRegUResponse)
    (id reg data : Nat) : Except Status Bool :=
  write_reg_u t id reg (u32_as_u64 data) 4

/-- Client convenience method write_reg_u64. -/
def write_reg_u64 (t : WriteRegURequest → Except Status WriteRegUResponse)
    (id reg data : Nat) : Except Status Bool :=
  write_reg_u t id reg data 8

/-- Client method write_reg_i: generic signed register write at an explicit width. -/
def write_reg_i (t : WriteRegIRequest → Except Status WriteRegIResponse)
    (id reg : Nat) (data : Int) (size : Nat) : Except Status Bool :=
  (t { id := id, reg := reg, data := data, size := size }).map
    WriteRegIResponse.result

/-- Client convenience method write_reg_i8. -/
def write_reg_i8 (t : WriteRegIRequest → Except Status WriteRegIResponse)
    (id reg : Nat) (data : Int) : Except Status Bool :=
  write_reg_i t id reg (i8_as_i64 data) 1

/-- Client convenience method write_reg_i16. -/
def write_reg_i16 (t : WriteRegIRequest → Except Status WriteRegIResponse)
    (id reg : Nat) (data : Int) : Except Status Bool :=
  write_reg_i t id reg (i16_as_i64 data) 2

/-- Client convenience method write_reg_i32. -/
def write_reg_i32 (t : WriteRegIRequest → Except Status WriteRegIResponse)
    (id reg : Nat) (data : Int) : Except Status Bool :=
  write_reg_i t id reg (i32_as_i64 data) 4

/-- Client convenience method write_reg_i64. -/
def write_reg_i64 (t : WriteRegIRequest → Except Status WriteRegIResponse)
    (id reg : Nat) (data : Int) : Except Status Bool :=
  write_reg_i t id reg data 8

/-- Client method read_reg_u: generic unsigned register read at an explicit width. -/
def read_reg_u (t : ReadRegRequest → Except Status ReadRegUResponse)
    (id reg size : Nat) : Except Status (Bool × Nat) :=
  (t { id := id, reg := reg, size := size }).map
    (fun inner => (inner.result, inner.data))

/-- Client convenience method read_reg_u8: read at width 1 and narrow the u64. -/
def read_reg_u8 (t : ReadRegRequest → Except Status ReadRegUResponse)
    (id reg : Nat) : Except Status (Bool × Nat) :=
  (read_reg_u t id reg 1).map (fun p => (p.1, u64_as_u8 p.2))

/-- Client convenience method read_reg_u16. -/
def read_reg_u16 (t : ReadRegRequest → Except Status ReadRegUResponse)
    (id reg : Nat) : Except Status (Bool × Nat) :=
  (read_reg_u t id reg 2).map (fun p => (p.1, u64_as_u16 p.2))

/-- Client convenience method read_reg_u32. -/
def read_reg_u32 (t : ReadRegRequest → Except Status ReadRegUResponse)
    (id reg : Nat) : Except Status (Bool × Nat) :=
  (read_reg_u t id reg 4).map (fun p => (p.1, u64_as_u32 p.2))

/-- Client convenience method read_reg_u64: no narrowing is needed. -/
def read_reg_u64 (t : ReadRegRequest → Except Status ReadRegUResponse)
    (id reg : Nat) : Except Status (Bool × Nat) :=
  read_reg_u t id reg 8

/-- Client method read_reg_i: generic signed register read at an explicit width. -/
def read_reg_i (t : ReadRegRequest → Except Status ReadRegIResponse)
    (id reg size : Nat) : Except Status (Bool × Int) :=
  (t { id := id, reg := reg, size := size }).map
    (fun inner => (inner.result, inner.data))

/-- Client convenience method read_reg_i8: read at width 1 and narrow the i64. -/
def read_reg_i8 (t : ReadRegRequest → Except Status ReadRegIResponse)
    (id reg : Nat) : Except Status (Bool × Int) :=
  (read_reg_i t id reg 1).map (fun p => (p.1, i64_as_i8 p.2))

/-- Client convenience method read_reg_i16. -/
def read_reg_i16 (t : ReadRegRequest → Except Status ReadRegIResponse)
    (id reg : Nat) : Except Status (Bool × Int) :=
  (read_reg_i t id reg 2).map (fun p => (p.1, i64_as_i16 p.2))

/-- Client convenience method read_reg_i32. -/
def read_reg_i32 (t : ReadRegRequest → Except Status ReadRegIResponse)
    (id reg : Nat) : Except Status (Bool × Int) :=
  (read_reg_i t id reg 4).map (fun p => (p.1, i64_as_i32 p.2))

/-- Client convenience method read_reg_i64: no narrowing is needed. -/
def read_reg_i64 (t : ReadRegRequest → Except Status ReadRegIResponse)
    (id reg : Nat) : Except Status (Bool × Int) :=
  read_reg_i t id reg 8

/-- Client method write_mem_f32: fixed-width float write, no size parameter. -/
def write_mem_f32 (t : WriteMemF32Request → Except Status WriteMemF32Response)
    (id offset : Nat) (data : F32Bits) : Except Status Bool :=
  (t { id := id, offset := offset, data := data }).map WriteMemF32Response.result

/-- Client method write_mem_f64: fixed-width float write, no size parameter. -/
def write_mem_f64 (t : WriteMemF64Request → Except Status WriteMemF64Response)
    (id offset : Nat) (data : F64Bits) : Except Status Bool :=
  (t { id := id, offset := offset, data := data }).map WriteMemF64Response.result

/-- Client method read_mem_f32: builds a ReadMemRequest with size 4. -/
def read_mem_f32 (t : ReadMemRequest → Except Status ReadMemF32Response)
    (id offset : Nat) : Except Status (Bool × F32Bits) :=
  (t { id := id, offset := offset, size := 4 }).map
    (fun inner => (inner.result, inner.data))

/-- Client method read_mem_f64: builds a ReadMemRequest with size 8. -/
def read_mem_f64 (t : ReadMemRequest → Except Status ReadMemF64Response)
    (id offset : Nat) : Except Status (Bool × F64Bits) :=
  (t { id := id, offset := offset, size := 8 }).map
    (fun inner => (inner.result, inner.data))

/-- Client method write_reg_f32: fixed-width float write, no size parameter. -/
def write_reg_f32 (t : WriteRegF32Request → Except Status WriteRegF32Response)
    (id reg : Nat) (data : F32Bits) : Except Status Bool :=
  (t { id := id, reg := reg, data := data }).map WriteRegF32Response.result

/-- Client method write_reg_f64: fixed-width float write, no size parameter. -/
def write_reg_f64 (t : WriteRegF64Request → Except Status WriteRegF64Response)
    (id reg : Nat) (data : F64Bits) : Except Status Bool :=
  (t { id := id, reg := reg, data := data }).map WriteRegF64Response.result

/-- Client method read_reg_f32: builds a ReadRegRequest with size 4. -/
def read_reg_f32 (t : ReadRegRequest → Except Status ReadRegF32Response)
    (id reg : Nat) : Except Status (Bool × F32Bits) :=
  (t { id := id, reg := reg, size := 4 }).map
    (fun inner => (inner.result, inner.data))

/-- Client method read_reg_f64: builds a ReadRegRequest with size 8. -/
def read_reg_f64 (t : ReadRegRequest → Except Status ReadRegF64Response)
    (id reg : Nat) : Except Status (Bool × F64Bits) :=
  (t { id := id, reg := reg, size := 8 }).map
    (fun inner => (inner.result, inner.data))

/-- Client method mem_copy_to: one request carrying the whole byte payload. -/
def mem_copy_to (t : MemCopyToRequest → Except Status MemCopyToResponse)
    (id offset : Nat) (data : List Nat) : Except Status Bool :=
  (t { id := id, offset := offset, data := data }).map MemCopyToResponse.result

/-- Client method mem_copy_from: one request, returning (result, bytes). -/
def mem_copy_from (t : MemCopyFromRequest → Except Status MemCopyFromResponse)
    (id offset size : Nat) : Except Status (Bool × List Nat) :=
  (t { id := id, offset := offset, size := size }).map
    (fun inner => (inner.result, inner.data))

/- The remaining pass-through operations of JellyFpgaClient. -/

/-- Wire request of the reset RPC (no fields). -/
structure ResetRequest where
deriving DecidableEq

/-- Wire response of the reset RPC. -/
structure ResetResponse where
  result : Bool
deriving DecidableEq

/-- Wire request of remove_firmware. -/
structure RemoveFirmwareRequest where
  name : String
deriving DecidableEq

/-- Wire response of remove_firmware. -/
structure RemoveFirmwareResponse where
  result : Bool
deriving DecidableEq

/-- Wire request of load_bitstream. -/
structure LoadBitstreamRequest where
  name : String
deriving DecidableEq

/-- Wire response of load_bitstream. -/
structure LoadBitstreamResponse where
  result : Bool
deriving DecidableEq

/-- Wire request of load_dtbo. -/
structure LoadDtboRequest where
  name : String
deriving DecidableEq

/-- Wire response of load_dtbo. -/
structure LoadDtboResponse where
  result : Bool
deriving DecidableEq

/-- Wire request of dts_to_dtb (device-tree source text). -/
structure DtsToDtbRequest where
  dts : String
deriving DecidableEq

/-- Wire response of dts_to_dtb (compiled blob bytes). -/
structure DtsToDtbResponse where
  result : Bool
  dtb : List Nat
deriving DecidableEq

/-- Wire request of bitstream_to_bin. -/
structure BitstreamToBinRequest where
  bitstream_name : String
  bin_name : String
  arch : String
deriving DecidableEq

/-- Wire response of bitstream_to_bin. -/
structure BitstreamToBinResponse where
  result : Bool
deriving DecidableEq

/-- Wire request of open_mmap (path, u64 offset, size and unit). -/
structure OpenMmapRequest where
  path : String
  offset : Nat
  size : Nat
  unit : Nat
deriving DecidableEq

/-- Wire response of open_mmap (u32 handle). -/
structure OpenMmapResponse where
  result : Bool
  id : Nat
deriving DecidableEq

/-- Wire request of open_uio. -/
structure OpenUioRequest where
  name : String
  unit : Nat
deriving DecidableEq

/-- Wire response of open_uio. -/
structure OpenUioResponse where
  result : Bool
  id : Nat
deriving DecidableEq

/-- Wire request of open_udmabuf. -/
structure OpenUdmabufRequest where
  name : String
  cache_enable : Bool
  unit : Nat
deriving DecidableEq

/-- Wire response of open_udmabuf. -/
structure OpenUdmabufResponse where
  result : Bool
  id : Nat
deriving DecidableEq

/-- Wire request of close. -/
structure CloseRequest where
  id : Nat
deriving DecidableEq

/-- Wire response of close. -/
structure CloseResponse where
  result : Bool
deriving DecidableEq

/-- Wire request of subclone. -/
structure SubcloneRequest where
  id : Nat
  offset : Nat
  size : Nat
  unit : Nat
deriving DecidableEq

/-- Wire response of subclone (the new handle). -/
structure SubcloneResponse where
  result : Bool
  id : Nat
deriving DecidableEq

/-- Wire request of get_addr. -/
structure GetAddrRequest where
  id : Nat
deriving DecidableEq

/-- Wire response of get_addr. -/
structure GetAddrResponse where
  result : Bool
  addr : Nat
deriving DecidableEq

/-- Wire request of get_size. -/
structure GetSizeRequest where
  id : Nat
deriving DecidableEq

/-- Wire response of get_size. -/
structure GetSizeResponse where
  result : Bool
  size : Nat
deriving DecidableEq

/-- Wire request of get_phys_addr. -/
structure GetPhysAddrRequest where
  id : Nat
deriving DecidableEq

/-- Wire response of get_phys_addr. -/
structure GetPhysAddrResponse where
  result : Bool
  phys_addr : Nat
deriving DecidableEq

/-- Client method reset. -/
def reset (t : ResetRequest → Except Status ResetResponse) : Except Status Bool :=
  (t {}).map ResetResponse.result

/-- Client method remove_firmware. -/
def remove_firmware (t : RemoveFirmwareRequest → Except Status RemoveFirmwareResponse)
    (name : String) : Except Status Bool :=
  (t { name := name }).map RemoveFirmwareResponse.result

/-- Client method load_bitstream. -/
def load_bitstream (t : LoadBitstreamRequest → Except Status LoadBitstreamResponse)
    (name : String) : Except Status Bool :=
  (t { name := name }).map LoadBitstreamResponse.result

/-- Client method load_dtbo. -/
def load_dtbo (t : LoadDtboRequest → Except Status LoadDtboResponse)
    (name : String) : Except Status Bool :=
  (t { name := name }).map LoadDtboResponse.result

/-- Client method dts_to_dtb: returns (result, dtb bytes). -/
def dts_to_dtb (t : DtsToDtbRequest → Except Status DtsToDtbResponse)
    (dts : String) : Except Status (Bool × List Nat) :=
  (t { dts := dts }).map (fun inner => (inner.result, inner.dtb))

/-- Client method bitstream_to_bin. -/
def bitstream_to_bin (t : BitstreamToBinRequest → Except Status BitstreamToBinResponse)
    (bitstream_name bin_name arch : String) : Except Status Bool :=
  (t { bitstream_name := bitstream_name, bin_name := bin_name, arch := arch }).map
    BitstreamToBinResponse.result

/-- Client method open_mmap: returns (result, handle). -/
def open_mmap (t : OpenMmapRequest → Except Status OpenMmapResponse)
    (path : String) (offset size unit : Nat) : Except Status (Bool × Nat) :=
  (t { path := path, offset := offset, size := size, unit := unit }).map
    (fun inner => (inner.result, inner.id))

/-- Client method open_uio: returns (result, handle). -/
def open_uio (t : OpenUioRequest → Except Status OpenUioResponse)
    (name : String) (unit : Nat) : Except Status (Bool × Nat) :=
  (t { name := name, unit := unit }).map (fun inner => (inner.result, inner.id))

/-- Client method open_udmabuf: returns (result, handle). -/
def open_udmabuf (t : OpenUdmabufRequest → Except Status OpenUdmabufResponse)
    (name : String) (cache_enable : Bool) (unit : Nat) : Except Status (Bool × Nat) :=
  (t { name := name, cache_enable := cache_enable, unit := unit }).map
    (fun inner => (inner.result, inner.id))

/-- Client method close. -/
def close (t : CloseRequest → Except Status CloseResponse) (id : Nat) :
    Except Status Bool :=
  (t { id := id }).map CloseResponse.result

/-- Client method subclone: returns (result, new handle). -/
def subclone (t : SubcloneRequest → Except Status SubcloneResponse)
    (id offset size unit : Nat) : Except Status (Bool × Nat) :=
  (t { id := id, offset := offset, size := size, unit := unit }).map
    (fun inner => (inner.result, inner.id))

/-- Client method get_addr: returns (result, addr). -/
def get_addr (t : GetAddrRequest → Except Status GetAddrResponse) (id : Nat) :
    Except Status (Bool × Nat) :=
  (t { id := id }).map (fun inner => (inner.result, inner.addr))

/-- Client method get_size: returns (result, size). -/
def get_size (t : GetSizeRequest → Except Status GetSizeResponse) (id : Nat) :
    Except Status (Bool × Nat) :=
  (t { id := id }).map (fun inner => (inner.result, inner.size))

/-- Client method get_phys_addr: returns (result, phys_addr). -/
def get_phys_addr (t : GetPhysAddrRequest → Except Status GetPhysAddrResponse) (id : Nat) :
    Except Status (Bool × Nat) :=
  (t { id := id }).map (fun inner => (inner.result, inner.phys_addr))

/- Properties of the chunk production. -/

/-- The chunk list is empty exactly when the data from the offset on is empty. -/
theorem chunksFrom_eq_nil (nm : String) (data : List Nat) (cs : Nat)
    (hcs : 0 < cs) (offset : Nat) :
    chunksFrom nm data cs hcs offset = [] ↔ data.length ≤ offset := by
  rw [chunksFrom]
  split
  · simp
    omega
  · simp
    omega

/-- The number of chunks is the ceiling of the remaining length over the chunk size. -/
theorem chunksFrom_length (nm : String) (data : List Nat) (cs : Nat)
    (hcs : 0 < cs) (offset : Nat) :
    (chunksFrom nm data cs hcs offset).length = (data.length - offset + cs - 1) / cs := by
  induction offset using chunksFrom.induct nm data cs hcs with
  | case1 offset h ih =>
    rw [chunksFrom]
    simp only [h, dite_true, List.length_cons, ih]
    rcases le_or_lt (offset + cs) data.length with hle | hlt
    · have he : min (offset + cs) data.length = offset + cs := by omega
      rw [he]
      have h1 : data.length - offset + cs - 1
          = (data.length - (offset + cs) + cs - 1) + cs := by omega
      rw [h1, Nat.add_div_right _ hcs]
    · have he : min (offset + cs) data.length = data.length := by omega
      rw [he]
      have h1 : data.length - data.length + cs - 1 = cs - 1 := by omega
      rw [h1, Nat.div_eq_of_lt (by omega)]
      have h2 : data.length - offset + cs - 1 = (data.length - offset - 1) + cs := by omega
      rw [h2, Nat.add_div_right _ hcs, Nat.div_eq_of_lt (by omega)]
  | case2 offset h =>
    rw [chunksFrom]
    simp only [h, dite_false]
    rw [Nat.div_eq_of_lt (by omega)]
    simp

/-- Concatenating the chunk payloads in production order recovers the data
from the offset on. -/
theorem chunksFrom_flatten (nm : String) (data : List Nat) (cs : Nat)
    (hcs : 0 < cs) (offset : Nat) :
    ((chunksFrom nm data cs hcs offset).map UploadFirmwareRequest.data).flatten
      = data.drop offset := by
  induction offset using chunksFrom.induct nm data cs hcs with
  | case1 offset h ih =>
    rw [chunksFrom]
    simp only [h, dite_true, List.map_cons, List.flatten_cons, ih]
    have h1 : data.drop (min (offset + cs) data.length)
        = (data.drop offset).drop (min (offset + cs) data.length - offset) := by
      rw [List.drop_drop]
      congr 1
      omega
    rw [h1, List.take_append_drop]
  | case2 offset h =>
    rw [chunksFrom]
    simp only [h, dite_false, List.map_nil, List.flatten_nil]
    exact (List.drop_eq_nil_of_le (by omega)).symm

/-- Every chunk carries the destination name and at most `cs` bytes. -/
theorem chunksFrom_mem (nm : String) (data : List Nat) (cs : Nat)
    (hcs : 0 < cs) (offset : Nat) :
    ∀ c ∈ chunksFrom nm data cs hcs offset, c.name = nm ∧ c.data.length ≤ cs := by
  induction offset using chunksFrom.induct nm data cs hcs with
  | case1 offset h ih =>
    rw [chunksFrom]
    simp only [h, dite_true]
    intro c hc
    rcases List.mem_cons.mp hc with rfl | hc2
    · refine ⟨rfl, ?_⟩
      simp only [List.length_take, List.length_drop]
      omega
    · exact ih c hc2
  | case2 offset h =>
    rw [chunksFrom]
    simp only [h, dite_false]
    intro c hc
    exact absurd hc (List.not_mem_nil c)

/-- Every chunk except possibly the last carries exactly `cs` bytes. -/
theorem chunksFrom_dropLast (nm : String) (data : List Nat) (cs : Nat)
    (hcs : 0 < cs) (offset : Nat) :
    ∀ c ∈ (chunksFrom nm data cs hcs offset).dropLast, c.data.length = cs := by
  induction offset using chunksFrom.induct nm data cs hcs with
  | case1 offset h ih =>
    rw [chunksFrom]
    simp only [h, dite_true]
    by_cases he : min (offset + cs) data.length < data.length
    · have hne : chunksFrom nm data cs hcs (min (offset + cs) data.length) ≠ [] := by
        rw [ne_eq, chunksFrom_eq_nil]
        omega
      rw [List.dropLast_cons_of_ne_nil hne]
      intro c hc
      rcases List.mem_cons.mp hc with rfl | hc2
      · simp only [List.length_take, List.length_drop]
        omega
      · exact ih c hc2
    · have hnil : chunksFrom nm data cs hcs (min (offset + cs) data.length) = [] := by
        rw [chunksFrom_eq_nil]
        omega
      rw [hnil]
      simp
  | case2 offset h =>
    rw [chunksFrom]
    simp only [h, dite_false]
    simp

/-- C1: upload_firmware splits the payload B into exactly ceil(B.length / 2 MiB)
chunks (zero for an empty payload), produced in order, each at most 2 MiB,
with only the final chunk possibly shorter, each carrying the destination
name, and concatenating back to B in order; the whole sequence is what the
single streaming request transmits. -/
theorem upload_firmware_chunking (name : String) (B : List Nat) :
    (upload_firmware_chunks name B).length
      = (B.length + 2 * 1024 * 1024 - 1) / (2 * 1024 * 1024)
    ∧ (∀ c ∈ upload_firmware_chunks name B,
        c.name = name ∧ c.data.length ≤ 2 * 1024 * 1024)
    ∧ (∀ c ∈ (upload_firmware_chunks name B).dropLast,
        c.data.length = 2 * 1024 * 1024)
    ∧ ((upload_firmware_chunks name B).map UploadFirmwareRequest.data).flatten = B
    ∧ ∀ t, upload_firmware t name B
        = (t (upload_firmware_chunks name B)).map UploadFirmwareResponse.result := by
  refine ⟨?_, ?_, ?_, ?_, fun t => rfl⟩
  · have h := chunksFrom_length name B (2 * 1024 * 1024) (by norm_num) 0
    simpa [upload_firmware_chunks] using h
  · exact chunksFrom_mem name B (2 * 1024 * 1024) (by norm_num) 0
  · exact chunksFrom_dropLast name B (2 * 1024 * 1024) (by norm_num) 0
  · have h := chunksFrom_flatten name B (2 * 1024 * 1024) (by norm_num) 0
    simpa [upload_firmware_chunks] using h

/-- Witness for C1 at a concrete payload: three bytes make one chunk that
carries them all. -/
theorem upload_firmware_chunking_witness :
    (upload_firmware_chunks ("fw") [1, 2, 3]).length = 1
    ∧ ((upload_firmware_chunks ("fw") [1, 2, 3]).map UploadFirmwareRequest.data).flatten
        = [1, 2, 3] := by
  constructor
  · have h := (upload_firmware_chunking ("fw") [1, 2, 3]).1
    norm_num at h
    exact h
  · exact (upload_firmware_chunking ("fw") [1, 2, 3]).2.2.2.1

/-- C9: the chunk stream is safe and finite: a poll past the end yields none
and leaves nothing more to yield; a successful poll yields a non-empty,
in-bounds slice, strictly advances the offset, and leaves name, data and
chunk size unchanged. -/
theorem poll_next_safe (s : DataStream) (hcs : 0 < s.chunk_size) :
    (s.data.length ≤ s.offset → s.poll_next = none)
    ∧ ∀ r s2, s.poll_next = some (r, s2) →
        s.offset < s2.offset ∧ s2.offset ≤ s.data.length
        ∧ r.data.length = s2.offset - s.offset
        ∧ r.data ≠ []
        ∧ r.data = (s.data.drop s.offset).take (s2.offset - s.offset)
        ∧ r.name = s.name
        ∧ s2.data = s.data ∧ s2.chunk_size = s.chunk_size ∧ s2.name = s.name := by
  constructor
  · intro h
    rw [DataStream.poll_next, if_pos (by omega : s.offset ≥ s.data.length)]
  · intro r s2 hp
    rw [DataStream.poll_next] at hp
    by_cases hge : s.offset ≥ s.data.length
    · rw [if_pos hge] at hp
      exact absurd hp (by simp)
    · rw [if_neg hge] at hp
      simp only [Option.some.injEq, Prod.mk.injEq] at hp
      obtain ⟨hr1, hr2⟩ := hp
      subst hr1
      subst hr2
      refine ⟨?_, ?_, ?_, ?_, rfl, rfl, rfl, rfl, rfl⟩
      · show s.offset < min (s.offset + s.chunk_size) s.data.length
        omega
      · show min (s.offset + s.chunk_size) s.data.length ≤ s.data.length
        omega
      · show ((s.data.drop s.offset).take
            (min (s.offset + s.chunk_size) s.data.length - s.offset)).length
          = min (s.offset + s.chunk_size) s.data.length - s.offset
        simp only [List.length_take, List.length_drop]
        omega
      · show (s.data.drop s.offset).take
            (min (s.offset + s.chunk_size) s.data.length - s.offset) ≠ []
        rw [ne_eq, ← List.length_eq_zero]
        simp only [List.length_take, List.length_drop]
        omega

/-- Witness for C9 at a concrete stream of two bytes and chunk size 2 MiB. -/
theorem poll_next_safe_witness :
    0 < (⟨"fw", [10, 20], 2 * 1024 * 1024, 0⟩ : DataStream).chunk_size
    ∧ ((⟨"fw", [10, 20], 2 * 1024 * 1024, 0⟩ : DataStream).data.length
          ≤ (⟨"fw", [10, 20], 2 * 1024 * 1024, 0⟩ : DataStream).offset →
        (⟨"fw", [10, 20], 2 * 1024 * 1024, 0⟩ : DataStream).poll_next = none)
    ∧ ∀ r s2, (⟨"fw", [10, 20], 2 * 1024 * 1024, 0⟩ : DataStream).poll_next = some (r, s2) →
        (⟨"fw", [10, 20], 2 * 1024 * 1024, 0⟩ : DataStream).offset < s2.offset
        ∧ s2.offset ≤ (⟨"fw", [10, 20], 2 * 1024 * 1024, 0⟩ : DataStream).data.length
        ∧ r.data.length = s2.offset - (⟨"fw", [10, 20], 2 * 1024 * 1024, 0⟩ : DataStream).offset
        ∧ r.data ≠ []
        ∧ r.data = ((⟨"fw", [10, 20], 2 * 1024 * 1024, 0⟩ : DataStream).data.drop
              (⟨"fw", [10, 20], 2 * 1024 * 1024, 0⟩ : DataStream).offset).take
              (s2.offset - (⟨"fw", [10, 20], 2 * 1024 * 1024, 0⟩ : DataStream).offset)
        ∧ r.name = (⟨"fw", [10, 20], 2 * 1024 * 1024, 0⟩ : DataStream).name
        ∧ s2.data = (⟨"fw", [10, 20], 2 * 1024 * 1024, 0⟩ : DataStream).data
        ∧ s2.chunk_size = (⟨"fw", [10, 20], 2 * 1024 * 1024, 0⟩ : DataStream).chunk_size
        ∧ s2.name = (⟨"fw", [10, 20], 2 * 1024 * 1024, 0⟩ : DataStream).name :=
  ⟨by norm_num,
   poll_next_safe (⟨"fw", [10, 20], 2 * 1024 * 1024, 0⟩ : DataStream) (by norm_num)⟩

/-- C8: unload_all is observationally the same operation as unload at slot 0:
it issues exactly one unload request, with slot index 0, and returns that
request result. -/
theorem unload_all_is_unload_zero :
    ∀ t : UnloadRequest → Except Status UnloadResponse,
      unload_all t = unload t 0
      ∧ unload_all t = (t { slot := 0 }).map UnloadResponse.result :=
  fun t => ⟨rfl, rfl⟩

/-- C7: the floating-point accessors take no width parameter; the reads build
their wire request with the size fixed by the variant (4 for f32, 8 for f64),
and the float write requests carry no size field at all. -/
theorem float_accessor_fixed_width :
    (∀ (t : ReadMemRequest → Except Status ReadMemF32Response) (id offset : Nat),
      read_mem_f32 t id offset
        = (t { id := id, offset := offset, size := 4 }).map
            (fun inner => (inner.result, inner.data)))
    ∧ (∀ (t : ReadMemRequest → Except Status ReadMemF64Response) (id offset : Nat),
      read_mem_f64 t id offset
        = (t { id := id, offset := offset, size := 8 }).map
            (fun inner => (inner.result, inner.data)))
    ∧ (∀ (t : ReadRegRequest → Except Status ReadRegF32Response) (id reg : Nat),
      read_reg_f32 t id reg
        = (t { id := id, reg := reg, size := 4 }).map
            (fun inner => (inner.result, inner.data)))
    ∧ (∀ (t : ReadRegRequest → Except Status ReadRegF64Response) (id reg : Nat),
      read_reg_f64 t id reg
        = (t { id := id, reg := reg, size := 8 }).map
            (fun inner => (inner.result, inner.data)))
    ∧ (∀ (t : WriteMemF32Request → Except Status WriteMemF32Response)
        (id offset : Nat) (d : F32Bits),
      write_mem_f32 t id offset d
        = (t { id := id, offset := offset, data := d }).map WriteMemF32Response.result)
    ∧ (∀ (t : WriteMemF64Request → Except Status WriteMemF64Response)
        (id offset : Nat) (d : F64Bits),
      write_mem_f64 t id offset d
        = (t { id := id, offset := offset, data := d }).map WriteMemF64Response.result)
    ∧ (∀ (t : WriteRegF32Request → Except Status WriteRegF32Response)
        (id reg : Nat) (d : F32Bits),
      write_reg_f32 t id reg d
        = (t { id := id, reg := reg, data := d }).map WriteRegF32Response.result)
    ∧ (∀ (t : WriteRegF64Request → Except Status WriteRegF64Response)
        (id reg : Nat) (d : F64Bits),
      write_reg_f64 t id reg d
        = (t { id := id, reg := reg, data := d }).map WriteRegF64Response.result) :=
  ⟨fun t id offset => rfl, fun t id offset => rfl,
   fun t id reg => rfl, fun t id reg => rfl,
   fun t id offset d => rfl, fun t id offset d => rfl,
   fun t id reg d => rfl, fun t id reg d => rfl⟩

/-- C3: every fixed-width convenience accessor is the generic width-polymorphic
accessor with the width argument fixed and the single widening or narrowing
cast applied; writes pass the widened value through, reads post-apply the
narrowing cast to the generic result, so all of them construct the very wire
request of the generic accessor and duplicate no extension or truncation
logic. -/
theorem convenience_wrappers_thin :
    (∀ (t : WriteMemURequest → Except Status WriteMemUResponse) (id offset d : Nat),
      write_mem_u8 t id offset d = write_mem_u t id offset (u8_as_u64 d) 1)
    ∧ (∀ (t : WriteMemURequest → Except Status WriteMemUResponse) (id offset d : Nat),
      write_mem_u16 t id offset d = write_mem_u t id offset (u16_as_u64 d) 2)
    ∧ (∀ (t : WriteMemURequest → Except Status WriteMemUResponse) (id offset d : Nat),
      write_mem_u32 t id offset d = write_mem_u t id offset (u32_as_u64 d) 4)
    ∧ (∀ (t : WriteMemURequest → Except Status WriteMemUResponse) (id offset d : Nat),
      write_mem_u64 t id offset d = write_mem_u t id offset d 8)
    ∧ (∀ (t : WriteMemIRequest → Except Status WriteMemIResponse)
        (id offset : Nat) (d : Int),
      write_mem_i8 t id offset d = write_mem_i t id offset (i8_as_i64 d) 1)
    ∧ (∀ (t : WriteMemIRequest → Except Status WriteMemIResponse)
        (id offset : Nat) (d : Int),
      write_mem_i16 t id offset d = write_mem_i t id offset (i16_as_i64 d) 2)
    ∧ (∀ (t : WriteMemIRequest → Except Status WriteMemIResponse)
        (id offset : Nat) (d : Int),
      write_mem_i32 t id offset d = write_mem_i t id offset (i32_as_i64 d) 4)
    ∧ (∀ (t : WriteMemIRequest → Except Status WriteMemIResponse)
        (id offset : Nat) (d : Int),
      write_mem_i64 t id offset d = write_mem_i t id offset d 8)
    ∧ (∀ (t : WriteRegURequest → Except Status WriteRegUResponse) (id reg d : Nat),
      write_reg_u8 t id reg d = write_reg_u t id reg (u8_as_u64 d) 1)
    ∧ (∀ (t : WriteRegURequest → Except Status WriteRegUResponse) (id reg d : Nat),
      write_reg_u16 t id reg d = write_reg_u t id reg (u16_as_u64 d) 2)
    ∧ (∀ (t : WriteRegURequest → Except Status WriteRegUResponse) (id reg d : Nat),
      write_reg_u32 t id reg d = write_reg_u t id reg (u32_as_u64 d) 4)
    ∧ (∀ (t : WriteRegURequest → Except Status WriteRegUResponse) (id reg d : Nat),
      write_reg_u64 t id reg d = write_reg_u t id reg d 8)
    ∧ (∀ (t : WriteRegIRequest → Except Status WriteRegIResponse)
        (id reg : Nat) (d : Int),
      write_reg_i8 t id reg d = write_reg_i t id reg (i8_as_i64 d) 1)
    ∧ (∀ (t : WriteRegIRequest → Except Status WriteRegIResponse)
        (id reg : Nat) (d : Int),
      write_reg_i16 t id reg d = write_reg_i t id reg (i16_as_i64 d) 2)
    ∧ (∀ (t : WriteRegIRequest → Except Status WriteRegIResponse)
        (id reg : Nat) (d : Int),
      write_reg_i32 t id reg d = write_reg_i t id reg (i32_as_i64 d) 4)
    ∧ (∀ (t : WriteRegIRequest → Except Status WriteRegIResponse)
        (id reg : Nat) (d : Int),
      write_reg_i64 t id reg d = write_reg_i t id reg d 8)
    ∧ (∀ (t : ReadMemRequest → Except Status ReadMemUResponse) (id offset : Nat),
      read_mem_u8 t id offset
        = (read_mem_u t id offset 1).map (fun p => (p.1, u64_as_u8 p.2)))
    ∧ (∀ (t : ReadMemRequest → Except Status ReadMemUResponse) (id offset : Nat),
      read_mem_u16 t id offset
        = (read_mem_u t id offset 2).map (fun p => (p.1, u64_as_u16 p.2)))
    ∧ (∀ (t : ReadMemRequest → Except Status ReadMemUResponse) (id offset : Nat),
      read_mem_u32 t id offset
        = (read_mem_u t id offset 4).map (fun p => (p.1, u64_as_u32 p.2)))
    ∧ (∀ (t : ReadMemRequest → Except Status ReadMemUResponse) (id offset : Nat),
      read_mem_u64 t id offset = read_mem_u t id offset 8)
    ∧ (∀ (t : ReadMemRequest → Except Status ReadMemIResponse) (id offset : Nat),
      read_mem_i8 t id offset
        = (read_mem_i t id offset 1).map (fun p => (p.1, i64_as_i8 p.2)))
    ∧ (∀ (t : ReadMemRequest → Except Status ReadMemIResponse) (id offset : Nat),
      read_mem_i16 t id offset
        = (read_mem_i t id offset 2).map (fun p => (p.1, i64_as_i16 p.2)))
    ∧ (∀ (t : ReadMemRequest → Except Status ReadMemIResponse) (id offset : Nat),
      read_mem_i32 t id offset
        = (read_mem_i t id offset 4).map (fun p => (p.1, i64_as_i32 p.2)))
    ∧ (∀ (t : ReadMemRequest → Except Status ReadMemIResponse) (id offset : Nat),
      read_mem_i64 t id offset = read_mem_i t id offset 8)
    ∧ (∀ (t : ReadRegRequest → Except Status ReadRegUResponse) (id reg : Nat),
      read_reg_u8 t id reg
        = (read_reg_u t id reg 1).map (fun p => (p.1, u64_as_u8 p.2)))
    ∧ (∀ (t : ReadRegRequest → Except Status ReadRegUResponse) (id reg : Nat),
      read_reg_u16 t id reg
        = (read_reg_u t id reg 2).map (fun p => (p.1, u64_as_u16 p.2)))
    ∧ (∀ (t : ReadRegRequest → Except Status ReadRegUResponse) (id reg : Nat),
      read_reg_u32 t id reg
        = (read_reg_u t id reg 4).map (fun p => (p.1, u64_as_u32 p.2)))
    ∧ (∀ (t : ReadRegRequest → Except Status ReadRegUResponse) (id reg : Nat),
      read_reg_u64 t id reg = read_reg_u t id reg 8)
    ∧ (∀ (t : ReadRegRequest → Except Status ReadRegIResponse) (id reg : Nat),
      read_reg_i8 t id reg
        = (read_reg_i t id reg 1).map (fun p => (p.1, i64_as_i8 p.2)))
    ∧ (∀ (t : ReadRegRequest → Except Status ReadRegIResponse) (id reg : Nat),
      read_reg_i16 t id reg
        = (read_reg_i t id reg 2).map (fun p => (p.1, i64_as_i16 p.2)))
    ∧ (∀ (t : ReadRegRequest → Except Status ReadRegIResponse) (id reg : Nat),
      read_reg_i32 t id reg
        = (read_reg_i t id reg 4).map (fun p => (p.1, i64_as_i32 p.2)))
    ∧ (∀ (t : ReadRegRequest → Except Status ReadRegIResponse) (id reg : Nat),
      read_reg_i64 t id reg = read_reg_i t id reg 8) :=
  ⟨fun t id offset d => rfl, fun t id offset d => rfl, fun t id offset d => rfl,
   fun t id offset d => rfl, fun t id offset d => rfl, fun t id offset d => rfl,
   fun t id offset d => rfl, fun t id offset d => rfl,
   fun t id reg d => rfl, fun t id reg d => rfl, fun t id reg d => rfl,
   fun t id reg d => rfl, fun t id reg d => rfl, fun t id reg d => rfl,
   fun t id reg d => rfl, fun t id reg d => rfl,
   fun t id offset => rfl, fun t id offset => rfl, fun t id offset => rfl,
   fun t id offset => rfl, fun t id offset => rfl, fun t id offset => rfl,
   fun t id offset => rfl, fun t id offset => rfl,
   fun t id reg => rfl, fun t id reg => rfl, fun t id reg => rfl,
   fun t id reg => rfl, fun t id reg => rfl, fun t id reg => rfl,
   fun t id reg => rfl, fun t id reg => rfl⟩

/- Mock register server for the round-trip law.  The server itself lives
outside this repository; spec section 8 states the law against a simulated
server echoing stored bytes. -/

/-- Modelled from the spec: the register file of the mock server, mapping a
register to the raw byte pattern stored there (a natural number). -/
abbrev MockRegStore := Nat → Nat

/-- Modelled from the spec: sign extension of a stored byte pattern of
`size` bytes from bit `8 * size - 1`. -/
def signExtend (size bits : Nat) : Int :=
  if bits % 2 ^ (8 * size) < 2 ^ (8 * size - 1) then
    ((bits % 2 ^ (8 * size) : Nat) : Int)
  else
    ((bits % 2 ^ (8 * size) : Nat) : Int) - ((2 ^ (8 * size) : Nat) : Int)

/-- Modelled from the spec: the mock server handles write_reg_u by storing
the low `size` bytes of the written value at the register and reporting
success. -/
def mockRegWriteU (m : MockRegStore) (req : WriteRegURequest) :
    MockRegStore × WriteRegUResponse :=
  (fun r => if r = req.reg then req.data % 2 ^ (8 * req.size) else m r,
   { result := true })

/-- Modelled from the spec: the mock server handles write_reg_i by storing
the low `size` bytes of the twos-complement pattern of the written value. -/
def mockRegWriteI (m : MockRegStore) (req : WriteRegIRequest) :
    MockRegStore × WriteRegIResponse :=
  (fun r => if r = req.reg then (req.data % ((2 ^ (8 * req.size) : Nat) : Int)).toNat else m r,
   { result := true })

/-- Modelled from the spec: the mock server handles read_reg_u by echoing the
stored bytes zero-extended. -/
def mockRegReadU (m : MockRegStore) (req : ReadRegRequest) : ReadRegUResponse :=
  { result := true, data := m req.reg % 2 ^ (8 * req.size) }

/-- Modelled from the spec: the mock server handles read_reg_i by echoing the
stored bytes sign-extended from bit `8 * size - 1`. -/
def mockRegReadI (m : MockRegStore) (req : ReadRegRequest) : ReadRegIResponse :=
  { result := true, data := signExtend req.size (m req.reg) }

/- Client calls executed against the mock register server: the client method
is applied to the transport that the mock provides, and the new store is the
one produced by the request the client sends. -/

/-- write_reg_u against the mock: resulting store and client result. -/
def runWriteRegU (m : MockRegStore) (id reg data size : Nat) :
    MockRegStore × Except Status Bool :=
  ((mockRegWriteU m { id := id, reg := reg, data := data, size := size }).1,
   write_reg_u (fun req => .ok (mockRegWriteU m req).2) id reg data size)

/-- write_reg_u8 against the mock: same cast and width as the client wrapper. -/
def runWriteRegU8 (m : MockRegStore) (id reg v : Nat) :
    MockRegStore × Except Status Bool :=
  runWriteRegU m id reg (u8_as_u64 v) 1

/-- write_reg_u16 against the mock. -/
def runWriteRegU16 (m : MockRegStore) (id reg v : Nat) :
    MockRegStore × Except Status Bool :=
  runWriteRegU m id reg (u16_as_u64 v) 2

/-- write_reg_u32 against the mock. -/
def runWriteRegU32 (m : MockRegStore) (id reg v : Nat) :
    MockRegStore × Except Status Bool :=
  runWriteRegU m id reg (u32_as_u64 v) 4

/-- write_reg_u64 against the mock. -/
def runWriteRegU64 (m : MockRegStore) (id reg v : Nat) :
    MockRegStore × Except Status Bool :=
  runWriteRegU m id reg v 8

/-- write_reg_i against the mock. -/
def runWriteRegI (m : MockRegStore) (id reg : Nat) (data : Int) (size : Nat) :
    MockRegStore × Except Status Bool :=
  ((mockRegWriteI m { id := id, reg := reg, data := data, size := size }).1,
   write_reg_i (fun req => .ok (mockRegWriteI m req).2) id reg data size)

/-- write_reg_i8 against the mock: same cast and width as the client wrapper. -/
def runWriteRegI8 (m : MockRegStore) (id reg : Nat) (v : Int) :
    MockRegStore × Except Status Bool :=
  runWriteRegI m id reg (i8_as_i64 v) 1

/-- write_reg_i16 against the mock. -/
def runWriteRegI16 (m : MockRegStore) (id reg : Nat) (v : Int) :
    MockRegStore × Except Status Bool :=
  runWriteRegI m id reg (i16_as_i64 v) 2

/-- write_reg_i32 against the mock. -/
def runWriteRegI32 (m : MockRegStore) (id reg : Nat) (v : Int) :
    MockRegStore × Except Status Bool :=
  runWriteRegI m id reg (i32_as_i64 v) 4

/-- write_reg_i64 against the mock. -/
def runWriteRegI64 (m : MockRegStore) (id reg : Nat) (v : Int) :
    MockRegStore × Except Status Bool :=
  runWriteRegI m id reg v 8

/-- read_reg_u against the mock. -/
def runReadRegU (m : MockRegStore) (id reg size : Nat) :
    Except Status (Bool × Nat) :=
  read_reg_u (fun req => .ok (mockRegReadU m req)) id reg size

/-- read_reg_u8 against the mock: same narrowing as the client wrapper. -/
def runReadRegU8 (m : MockRegStore) (id reg : Nat) : Except Status (Bool × Nat) :=
  (runReadRegU m id reg 1).map (fun p => (p.1, u64_as_u8 p.2))

/-- read_reg_u16 against the mock. -/
def runReadRegU16 (m : MockRegStore) (id reg : Nat) : Except Status (Bool × Nat) :=
  (runReadRegU m id reg 2).map (fun p => (p.1, u64_as_u16 p.2))

/-- read_reg_u32 against the mock. -/
def runReadRegU32 (m : MockRegStore) (id reg : Nat) : Except Status (Bool × Nat) :=
  (runReadRegU m id reg 4).map (fun p => (p.1, u64_as_u32 p.2))

/-- read_reg_u64 against the mock. -/
def runReadRegU64 (m : MockRegStore) (id reg : Nat) : Except Status (Bool × Nat) :=
  runReadRegU m id reg 8

/-- read_reg_i against the mock. -/
def runReadRegI (m : MockRegStore) (id reg size : Nat) :
    Except Status (Bool × Int) :=
  read_reg_i (fun req => .ok (mockRegReadI m req)) id reg size

/-- read_reg_i8 against the mock: same narrowing as the client wrapper. -/
def runReadRegI8 (m : MockRegStore) (id reg : Nat) : Except Status (Bool × Int) :=
  (runReadRegI m id reg 1).map (fun p => (p.1, i64_as_i8 p.2))

/-- read_reg_i16 against the mock. -/
def runReadRegI16 (m : MockRegStore) (id reg : Nat) : Except Status (Bool × Int) :=
  (runReadRegI m id reg 2).map (fun p => (p.1, i64_as_i16 p.2))

/-- read_reg_i32 against the mock. -/
def runReadRegI32 (m : MockRegStore) (id reg : Nat) : Except Status (Bool × Int) :=
  (runReadRegI m id reg 4).map (fun p => (p.1, i64_as_i32 p.2))

/-- read_reg_i64 against the mock. -/
def runReadRegI64 (m : MockRegStore) (id reg : Nat) : Except Status (Bool × Int) :=
  runReadRegI m id reg 8

/-- C2: against the mock server that stores the low `w` bytes of a written
value and echoes the stored bytes back, writing with the width-w convenience
writer and reading back with the matching-signedness width-w convenience
reader reproduces the value, for every width in 1, 2, 4, 8; in particular
writing -1 at width 1 signed reads back as (true, -1) signed and as
(true, 255) unsigned. -/
theorem reg_width_roundtrip (m : MockRegStore) (id reg : Nat) :
    (∀ v : Int, -(2 ^ 7) ≤ v → v < 2 ^ 7 →
      runReadRegI8 (runWriteRegI8 m id reg v).1 id reg = .ok (true, v))
    ∧ (∀ v : Int, -(2 ^ 15) ≤ v → v < 2 ^ 15 →
      runReadRegI16 (runWriteRegI16 m id reg v).1 id reg = .ok (true, v))
    ∧ (∀ v : Int, -(2 ^ 31) ≤ v → v < 2 ^ 31 →
      runReadRegI32 (runWriteRegI32 m id reg v).1 id reg = .ok (true, v))
    ∧ (∀ v : Int, -(2 ^ 63) ≤ v → v < 2 ^ 63 →
      runReadRegI64 (runWriteRegI64 m id reg v).1 id reg = .ok (true, v))
    ∧ (∀ u : Nat, u < 2 ^ 8 →
      runReadRegU8 (runWriteRegU8 m id reg u).1 id reg = .ok (true, u))
    ∧ (∀ u : Nat, u < 2 ^ 16 →
      runReadRegU16 (runWriteRegU16 m id reg u).1 id reg = .ok (true, u))
    ∧ (∀ u : Nat, u < 2 ^ 32 →
      runReadRegU32 (runWriteRegU32 m id reg u).1 id reg = .ok (true, u))
    ∧ (∀ u : Nat, u < 2 ^ 64 →
      runReadRegU64 (runWriteRegU64 m id reg u).1 id reg = .ok (true, u))
    ∧ runReadRegI8 (runWriteRegI8 m id 24 (-1)).1 id 24 = .ok (true, -1)
    ∧ runReadRegU8 (runWriteRegI8 m id 24 (-1)).1 id 24 = .ok (true, 255) := by
  refine ⟨?_, ?_, ?_, ?_, ?_, ?_, ?_, ?_, ?_, ?_⟩
  · intro v h1 h2
    simp only [runReadRegI8, runWriteRegI8, runReadRegI, runWriteRegI, read_reg_i,
      mockRegReadI, mockRegWriteI, i8_as_i64, Except.map, if_pos]
    simp only [Except.ok.injEq, Prod.mk.injEq, true_and]
    simp only [i64_as_i8, signExtend]
    norm_num
    split <;> split <;> omega
  · intro v h1 h2
    simp only [runReadRegI16, runWriteRegI16, runReadRegI, runWriteRegI, read_reg_i,
      mockRegReadI, mockRegWriteI, i16_as_i64, Except.map, if_pos]
    simp only [Except.ok.injEq, Prod.mk.injEq, true_and]
    simp only [i64_as_i16, signExtend]
    norm_num
    split <;> split <;> omega
  · intro v h1 h2
    simp only [runReadRegI32, runWriteRegI32, runReadRegI, runWriteRegI, read_reg_i,
      mockRegReadI, mockRegWriteI, i32_as_i64, Except.map, if_pos]
    simp only [Except.ok.injEq, Prod.mk.injEq, true_and]
    simp only [i64_as_i32, signExtend]
    norm_num
    split <;> split <;> omega
  · intro v h1 h2
    simp only [runReadRegI64, runWriteRegI64, runReadRegI, runWriteRegI, read_reg_i,
      mockRegReadI, mockRegWriteI, Except.map, if_pos]
    simp only [Except.ok.injEq, Prod.mk.injEq, true_and]
    simp only [signExtend]
    norm_num
    split <;> omega
  · intro u hu
    simp only [runReadRegU8, runWriteRegU8, runReadRegU, runWriteRegU, read_reg_u,
      mockRegReadU, mockRegWriteU, u8_as_u64, u64_as_u8, Except.map, if_pos]
    simp only [Except.ok.injEq, Prod.mk.injEq, true_and]
    norm_num
    omega
  · intro u hu
    simp only [runReadRegU16, runWriteRegU16, runReadRegU, runWriteRegU, read_reg_u,
      mockRegReadU, mockRegWriteU, u16_as_u64, u64_as_u16, Except.map, if_pos]
    simp only [Except.ok.injEq, Prod.mk.injEq, true_and]
    norm_num
    omega
  · intro u hu
    simp only [runReadRegU32, runWriteRegU32, runReadRegU, runWriteRegU, read_reg_u,
      mockRegReadU, mockRegWriteU, u32_as_u64, u64_as_u32, Except.map, if_pos]
    simp only [Except.ok.injEq, Prod.mk.injEq, true_and]
    norm_num
    omega
  · intro u hu
    simp only [runReadRegU64, runWriteRegU64, runReadRegU, runWriteRegU, read_reg_u,
      mockRegReadU, mockRegWriteU, Except.map, if_pos]
    simp only [Except.ok.injEq, Prod.mk.injEq, true_and]
    norm_num
    omega
  · simp only [runReadRegI8, runWriteRegI8, runReadRegI, runWriteRegI, read_reg_i,
      mockRegReadI, mockRegWriteI, i8_as_i64, Except.map, if_pos]
    simp only [Except.ok.injEq, Prod.mk.injEq, true_and]
    simp only [i64_as_i8, signExtend]
    decide
  · simp only [runReadRegU8, runWriteRegI8, runReadRegU, runWriteRegI, read_reg_u,
      mockRegReadU, mockRegWriteI, i8_as_i64, u64_as_u8, Except.map, if_pos]
    simp only [Except.ok.injEq, Prod.mk.injEq, true_and]
    decide

/-- Witness for C2: writing -1 as a signed byte to register 24 of an
all-zero mock store, then reading back signed gives -1 and unsigned gives 255. -/
theorem reg_width_roundtrip_witness :
    runReadRegI8 (runWriteRegI8 (fun _ => 0 : MockRegStore) 1 24 (-1)).1 1 24
      = .ok (true, -1)
    ∧ runReadRegU8 (runWriteRegI8 (fun _ => 0 : MockRegStore) 1 24 (-1)).1 1 24
      = .ok (true, 255) :=
  ⟨(reg_width_roundtrip (fun _ => 0 : MockRegStore) 1 24).1 (-1)
      (by norm_num) (by norm_num),
   (reg_width_roundtrip (fun _ => 0 : MockRegStore) 1 24).2.2.2.2.2.2.2.2.2⟩

/- Mock memory server for the bulk-copy round trip. -/

/-- Modelled from the spec: the byte-addressed memory of the mock server. -/
abbrev MockMem := Nat → Nat

/-- Modelled from the spec: the mock server handles mem_copy_to by storing the
payload bytes at consecutive addresses from the offset, reporting success. -/
def mockMemCopyTo (m : MockMem) (req : MemCopyToRequest) :
    MockMem × MemCopyToResponse :=
  (fun a => if req.offset ≤ a ∧ a < req.offset + req.data.length
            then req.data.getD (a - req.offset) 0 else m a,
   { result := true })

/-- Modelled from the spec: the mock server handles mem_copy_from by returning
the `size` bytes stored from the offset on. -/
def mockMemCopyFrom (m : MockMem) (req : MemCopyFromRequest) : MemCopyFromResponse :=
  { result := true, data := (List.range req.size).map (fun i => m (req.offset + i)) }

/-- mem_copy_to against the mock: resulting memory and client result. -/
def runMemCopyTo (m : MockMem) (id offset : Nat) (data : List Nat) :
    MockMem × Except Status Bool :=
  ((mockMemCopyTo m { id := id, offset := offset, data := data }).1,
   mem_copy_to (fun req => .ok (mockMemCopyTo m req).2) id offset data)

/-- mem_copy_from against the mock. -/
def runMemCopyFrom (m : MockMem) (id offset size : Nat) :
    Except Status (Bool × List Nat) :=
  mem_copy_from (fun req => .ok (mockMemCopyFrom m req)) id offset size

/-- C6: mem_copy_to sends the whole payload unmodified in one single
request/response pair, with no chunking whatever the length, and against the
mock memory that stores the bytes at the offset, mem_copy_to followed by
mem_copy_from at the same handle, offset and length returns exactly the
bytes written. -/
theorem mem_copy_single_request_roundtrip :
    (∀ (t : MemCopyToRequest → Except Status MemCopyToResponse)
      (id offset : Nat) (data : List Nat),
      mem_copy_to t id offset data
        = (t { id := id, offset := offset, data := data }).map MemCopyToResponse.result)
    ∧ (∀ (t : MemCopyFromRequest → Except Status MemCopyFromResponse)
      (id offset size : Nat),
      mem_copy_from t id offset size
        = (t { id := id, offset := offset, size := size }).map
            (fun inner => (inner.result, inner.data)))
    ∧ ∀ (m : MockMem) (id offset : Nat) (data : List Nat),
      runMemCopyFrom (runMemCopyTo m id offset data).1 id offset data.length
        = .ok (true, data) := by
  refine ⟨fun t id offset data => rfl, fun t id offset size => rfl, ?_⟩
  intro m id offset data
  simp only [runMemCopyFrom, runMemCopyTo, mem_copy_from, mockMemCopyFrom, mockMemCopyTo,
    Except.map]
  simp only [Except.ok.injEq, Prod.mk.injEq, true_and]
  apply List.ext_getElem
  · simp
  · intro i h1 h2
    simp only [List.getElem_map, List.getElem_range]
    rw [if_pos (by constructor <;> omega)]
    have h3 : offset + i - offset = i := by omega
    rw [h3]
    simp [List.getD_eq_getElem?_getD, List.getElem?_eq_getElem h2]

/-- Every Except map sends an ok response to the mapped ok value and passes a
transport error through unchanged. -/
theorem except_map_axes {α β : Type} (x : Except Status α) (f : α → β) :
    (∀ a, x = .ok a → x.map f = .ok (f a)) ∧ ∀ e, x = .error e → x.map f = .error e :=
  ⟨fun a h => by rw [h]; rfl, fun e h => by rw [h]; rfl⟩

/-- Two chained Except maps send an ok response to the doubly mapped ok value
and pass a transport error through unchanged. -/
theorem except_map2_axes {α β γ : Type} (x : Except Status α) (f : α → β) (g : β → γ) :
    (∀ a, x = .ok a → (x.map f).map g = .ok (g (f a)))
    ∧ ∀ e, x = .error e → (x.map f).map g = .error e :=
  ⟨fun a h => by rw [h]; rfl, fun e h => by rw [h]; rfl⟩

/-- C4: for every operation of the client, a transport-level success whose
response carries result false comes back as a normal non-error value with the
boolean flag false (the flag and payload are passed through unchanged, load on
a missing name giving Ok (false, slot)), never converted into a transport
error; and a transport error is surfaced as that very error value, carrying
its status code and message, never as a false result flag. -/
theorem operation_error_axes :
    (∀ (t : ResetRequest → Except Status ResetResponse),
      (∀ resp, t {} = .ok resp →
        reset t = .ok resp.result)
      ∧ ∀ e, t {} = .error e → reset t = .error e)
    ∧ (∀ (t : LoadRequest → Except Status LoadResponse) (name : String),
      (∀ slot : Int, t { name := name } = .ok { result := false, slot := slot } →
        load t name = .ok (false, slot))
      ∧ (∀ resp, t { name := name } = .ok resp → load t name = .ok (resp.result, resp.slot))
      ∧ ∀ e, t { name := name } = .error e →
        load t name = .error e ∧ ∀ p : Bool × Int, load t name ≠ .ok p)
    ∧ (∀ (t : UnloadRequest → Except Status UnloadResponse) (slot : Int),
      (∀ resp, t { slot := slot } = .ok resp →
        unload t slot = .ok resp.result)
      ∧ ∀ e, t { slot := slot } = .error e → unload t slot = .error e)
    ∧ (∀ (t : UnloadRequest → Except Status UnloadResponse),
      (∀ resp, t { slot := 0 } = .ok resp →
        unload_all t = .ok resp.result)
      ∧ ∀ e, t { slot := 0 } = .error e → unload_all t = .error e)
    ∧ (∀ (t : List UploadFirmwareRequest → Except Status UploadFirmwareResponse) (name : String) (data : List Nat),
      (∀ resp, t (upload_firmware_chunks name data) = .ok resp →
        upload_firmware t name data = .ok resp.result)
      ∧ ∀ e, t (upload_firmware_chunks name data) = .error e → upload_firmware t name data = .error e)
    ∧ (∀ (fs : String → Except IoError (List Nat))
        (t : List UploadFirmwareRequest → Except Status UploadFirmwareResponse)
        (name path : String) (data : List Nat), fs path = .ok data →
      (∀ resp, t (upload_firmware_chunks name data) = .ok resp →
        upload_firmware_file fs t name path = .ok resp.result)
      ∧ ∀ e, t (upload_firmware_chunks name data) = .error e →
        upload_firmware_file fs t name path = .error e)
    ∧ (∀ (t : RemoveFirmwareRequest → Except Status RemoveFirmwareResponse) (name : String),
      (∀ resp, t { name := name } = .ok resp →
        remove_firmware t name = .ok resp.result)
      ∧ ∀ e, t { name := name } = .error e → remove_firmware t name = .error e)
    ∧ (∀ (t : LoadBitstreamRequest → Except Status LoadBitstreamResponse) (name : String),
      (∀ resp, t { name := name } = .ok resp →
        load_bitstream t name = .ok resp.result)
      ∧ ∀ e, t { name := name } = .error e → load_bitstream t name = .error e)
    ∧ (∀ (t : LoadDtboRequest → Except Status LoadDtboResponse) (name : String),
      (∀ resp, t { name := name } = .ok resp →
        load_dtbo t name = .ok resp.result)
      ∧ ∀ e, t { name := name } = .error e → load_dtbo t name = .error e)
    ∧ (∀ (t : DtsToDtbRequest → Except Status DtsToDtbResponse) (dts : String),
      (∀ resp, t { dts := dts } = .ok resp →
        dts_to_dtb t dts = .ok (resp.result, resp.dtb))
      ∧ ∀ e, t { dts := dts } = .error e → dts_to_dtb t dts = .error e)
    ∧ (∀ (t : BitstreamToBinRequest → Except Status BitstreamToBinResponse) (bitstream_name bin_name arch : String),
      (∀ resp, t { bitstream_name := bitstream_name, bin_name := bin_name, arch := arch } = .ok resp →
        bitstream_to_bin t bitstream_name bin_name arch = .ok resp.result)
      ∧ ∀ e, t { bitstream_name := bitstream_name, bin_name := bin_name, arch := arch } = .error e → bitstream_to_bin t bitstream_name bin_name arch = .error e)
    ∧ (∀ (t : OpenMmapRequest → Except Status OpenMmapResponse) (path : String) (offset size unit : Nat),
      (∀ resp, t { path := path, offset := offset, size := size, unit := unit } = .ok resp →
        open_mmap t path offset size unit = .ok (resp.result, resp.id))
      ∧ ∀ e, t { path := path, offset := offset, size := size, unit := unit } = .error e → open_mmap t path offset size unit = .error e)
    ∧ (∀ (t : OpenUioRequest → Except Status OpenUioResponse) (name : String) (unit : Nat),
      (∀ resp, t { name := name, unit := unit } = .ok resp →
        open_uio t name unit = .ok (resp.result, resp.id))
      ∧ ∀ e, t { name := name, unit := unit } = .error e → open_uio t name unit = .error e)
    ∧ (∀ (t : OpenUdmabufRequest → Except Status OpenUdmabufResponse) (name : String) (cache_enable : Bool) (unit : Nat),
      (∀ resp, t { name := name, cache_enable := cache_enable, unit := unit } = .ok resp →
        open_udmabuf t name cache_enable unit = .ok (resp.result, resp.id))
      ∧ ∀ e, t { name := name, cache_enable := cache_enable, unit := unit } = .error e → open_udmabuf t name cache_enable unit = .error e)
    ∧ (∀ (t : CloseRequest → Except Status CloseResponse) (id : Nat),
      (∀ resp, t { id := id } = .ok resp →
        close t id = .ok resp.result)
      ∧ ∀ e, t { id := id } = .error e → close t id = .error e)
    ∧ (∀ (t : SubcloneRequest → Except Status SubcloneResponse) (id offset size unit : Nat),
      (∀ resp, t { id := id, offset := offset, size := size, unit := unit } = .ok resp →
        subclone t id offset size unit = .ok (resp.result, resp.id))
      ∧ ∀ e, t { id := id, offset := offset, size := size, unit := unit } = .error e → subclone t id offset size unit = .error e)
    ∧ (∀ (t : GetAddrRequest → Except Status GetAddrResponse) (id : Nat),
      (∀ resp, t { id := id } = .ok resp →
        get_addr t id = .ok (resp.result, resp.addr))
      ∧ ∀ e, t { id := id } = .error e → get_addr t id = .error e)
    ∧ (∀ (t : GetSizeRequest → Except Status GetSizeResponse) (id : Nat),
      (∀ resp, t { id := id } = .ok resp →
        get_size t id = .ok (resp.result, resp.size))
      ∧ ∀ e, t { id := id } = .error e → get_size t id = .error e)
    ∧ (∀ (t : GetPhysAddrRequest → Except Status GetPhysAddrResponse) (id : Nat),
      (∀ resp, t { id := id } = .ok resp →
        get_phys_addr t id = .ok (resp.result, resp.phys_addr))
      ∧ ∀ e, t { id := id } = .error e → get_phys_addr t id = .error e)
    ∧ (∀ (t : WriteMemURequest → Except Status WriteMemUResponse) (id offset d size : Nat),
      (∀ resp, t { id := id, offset := offset, data := d, size := size } = .ok resp →
        write_mem_u t id offset d size = .ok resp.result)
      ∧ ∀ e, t { id := id, offset := offset, data := d, size := size } = .error e → write_mem_u t id offset d size = .error e)
    ∧ (∀ (t : WriteMemURequest → Except Status WriteMemUResponse) (id offset d : Nat),
      (∀ resp, t { id := id, offset := offset, data := u8_as_u64 d, size := 1 } = .ok resp →
        write_mem_u8 t id offset d = .ok resp.result)
      ∧ ∀ e, t { id := id, offset := offset, data := u8_as_u64 d, size := 1 } = .error e → write_mem_u8 t id offset d = .error e)
    ∧ (∀ (t : WriteMemURequest → Except Status WriteMemUResponse) (id offset d : Nat),
      (∀ resp, t { id := id, offset := offset, data := u16_as_u64 d, size := 2 } = .ok resp →
        write_mem_u16 t id offset d = .ok resp.result)
      ∧ ∀ e, t { id := id, offset := offset, data := u16_as_u64 d, size := 2 } = .error e → write_mem_u16 t id offset d = .error e)
    ∧ (∀ (t : WriteMemURequest → Except Status WriteMemUResponse) (id offset d : Nat),
      (∀ resp, t { id := id, offset := offset, data := u32_as_u64 d, size := 4 } = .ok resp →
        write_mem_u32 t id offset d = .ok resp.result)
      ∧ ∀ e, t { id := id, offset := offset, data := u32_as_u64 d, size := 4 } = .error e → write_mem_u32 t id offset d = .error e)
    ∧ (∀ (t : WriteMemURequest → Except Status WriteMemUResponse) (id offset d : Nat),
      (∀ resp, t { id := id, offset := offset, data := d, size := 8 } = .ok resp →
        write_mem_u64 t id offset d = .ok resp.result)
      ∧ ∀ e, t { id := id, offset := offset, data := d, size := 8 } = .error e → write_mem_u64 t id offset d = .error e)
    ∧ (∀ (t : WriteMemIRequest → Except Status WriteMemIResponse) (id offset : Nat) (d : Int) (size : Nat),
      (∀ resp, t { id := id, offset := offset, data := d, size := size } = .ok resp →
        write_mem_i t id offset d size = .ok resp.result)
      ∧ ∀ e, t { id := id, offset := offset, data := d, size := size } = .error e → write_mem_i t id offset d size = .error e)
    ∧ (∀ (t : WriteMemIRequest → Except Status WriteMemIResponse) (id offset : Nat) (d : Int),
      (∀ resp, t { id := id, offset := offset, data := i8_as_i64 d, size := 1 } = .ok resp →
        write_mem_i8 t id offset d = .ok resp.result)
      ∧ ∀ e, t { id := id, offset := offset, data := i8_as_i64 d, size := 1 } = .error e → write_mem_i8 t id offset d = .error e)
    ∧ (∀ (t : WriteMemIRequest → Except Status WriteMemIResponse) (id offset : Nat) (d : Int),
      (∀ resp, t { id := id, offset := offset, data := i16_as_i64 d, size := 2 } = .ok resp →
        write_mem_i16 t id offset d = .ok resp.result)
      ∧ ∀ e, t { id := id, offset := offset, data := i16_as_i64 d, size := 2 } = .error e → write_mem_i16 t id offset d = .error e)
    ∧ (∀ (t : WriteMemIRequest → Except Status WriteMemIResponse) (id offset : Nat) (d : Int),
      (∀ resp, t { id := id, offset := offset, data := i32_as_i64 d, size := 4 } = .ok resp →
        write_mem_i32 t id offset d = .ok resp.result)
      ∧ ∀ e, t { id := id, offset := offset, data := i32_as_i64 d, size := 4 } = .error e → write_mem_i32 t id offset d = .error e)
    ∧ (∀ (t : WriteMemIRequest → Except Status WriteMemIResponse) (id offset : Nat) (d : Int),
      (∀ resp, t { id := id, offset := offset, data := d, size := 8 } = .ok resp →
        write_mem_i64 t id offset d = .ok resp.result)
      ∧ ∀ e, t { id := id, offset := offset, data := d, size := 8 } = .error e → write_mem_i64 t id offset d = .error e)
    ∧ (∀ (t : ReadMemRequest → Except Status ReadMemUResponse) (id offset size : Nat),
      (∀ resp, t { id := id, offset := offset, size := size } = .ok resp →
        read_mem_u t id offset size = .ok (resp.result, resp.data))
      ∧ ∀ e, t { id := id, offset := offset, size := size } = .error e → read_mem_u t id offset size = .error e)
    ∧ (∀ (t : ReadMemRequest → Except Status ReadMemUResponse) (id offset : Nat),
      (∀ resp, t { id := id, offset := offset, size := 1 } = .ok resp →
        read_mem_u8 t id offset = .ok (resp.result, u64_as_u8 resp.data))
      ∧ ∀ e, t { id := id, offset := offset, size := 1 } = .error e → read_mem_u8 t id offset = .error e)
    ∧ (∀ (t : ReadMemRequest → Except Status ReadMemUResponse) (id offset : Nat),
      (∀ resp, t { id := id, offset := offset, size := 2 } = .ok resp →
        read_mem_u16 t id offset = .ok (resp.result, u64_as_u16 resp.data))
      ∧ ∀ e, t { id := id, offset := offset, size := 2 } = .error e → read_mem_u16 t id offset = .error e)
    ∧ (∀ (t : ReadMemRequest → Except Status ReadMemUResponse) (id offset : Nat),
      (∀ resp, t { id := id, offset := offset, size := 4 } = .ok resp →
        read_mem_u32 t id offset = .ok (resp.result, u64_as_u32 resp.data))
      ∧ ∀ e, t { id := id, offset := offset, size := 4 } = .error e → read_mem_u32 t id offset = .error e)
    ∧ (∀ (t : ReadMemRequest → Except Status ReadMemUResponse) (id offset : Nat),
      (∀ resp, t { id := id, offset := offset, size := 8 } = .ok resp →
        read_mem_u64 t id offset = .ok (resp.result, resp.data))
      ∧ ∀ e, t { id := id, offset := offset, size := 8 } = .error e → read_mem_u64 t id offset = .error e)
    ∧ (∀ (t : ReadMemRequest → Except Status ReadMemIResponse) (id offset size : Nat),
      (∀ resp, t { id := id, offset := offset, size := size } = .ok resp →
        read_mem_i t id offset size = .ok (resp.result, resp.data))
      ∧ ∀ e, t { id := id, offset := offset, size := size } = .error e → read_mem_i t id offset size = .error e)
    ∧ (∀ (t : ReadMemRequest → Except Status ReadMemIResponse) (id offset : Nat),
      (∀ resp, t { id := id, offset := offset, size := 1 } = .ok resp →
        read_mem_i8 t id offset = .ok (resp.result, i64_as_i8 resp.data))
      ∧ ∀ e, t { id := id, offset := offset, size := 1 } = .error e → read_mem_i8 t id offset = .error e)
    ∧ (∀ (t : ReadMemRequest → Except Status ReadMemIResponse) (id offset : Nat),
      (∀ resp, t { id := id, offset := offset, size := 2 } = .ok resp →
        read_mem_i16 t id offset = .ok (resp.result, i64_as_i16 resp.data))
      ∧ ∀ e, t { id := id, offset := offset, size := 2 } = .error e → read_mem_i16 t id offset = .error e)
    ∧ (∀ (t : ReadMemRequest → Except Status ReadMemIResponse) (id offset : Nat),
      (∀ resp, t { id := id, offset := offset, size := 4 } = .ok resp →
        read_mem_i32 t id offset = .ok (resp.result, i64_as_i32 resp.data))
      ∧ ∀ e, t { id := id, offset := offset, size := 4 } = .error e → read_mem_i32 t id offset = .error e)
    ∧ (∀ (t : ReadMemRequest → Except Status ReadMemIResponse) (id offset : Nat),
      (∀ resp, t { id := id, offset := offset, size := 8 } = .ok resp →
        read_mem_i64 t id offset = .ok (resp.result, resp.data))
      ∧ ∀ e, t { id := id, offset := offset, size := 8 } = .error e → read_mem_i64 t id offset = .error e)
    ∧ (∀ (t : WriteRegURequest → Except Status WriteRegUResponse) (id reg d size : Nat),
      (∀ resp, t { id := id, reg := reg, data := d, size := size } = .ok resp →
        write_reg_u t id reg d size = .ok resp.result)
      ∧ ∀ e, t { id := id, reg := reg, data := d, size := size } = .error e → write_reg_u t id reg d size = .error e)
    ∧ (∀ (t : WriteRegURequest → Except Status WriteRegUResponse) (id reg d : Nat),
      (∀ resp, t { id := id, reg := reg, data := u8_as_u64 d, size := 1 } = .ok resp →
        write_reg_u8 t id reg d = .ok resp.result)
      ∧ ∀ e, t { id := id, reg := reg, data := u8_as_u64 d, size := 1 } = .error e → write_reg_u8 t id reg d = .error e)
    ∧ (∀ (t : WriteRegURequest → Except Status WriteRegUResponse) (id reg d : Nat),
      (∀ resp, t { id := id, reg := reg, data := u16_as_u64 d, size := 2 } = .ok resp →
        write_reg_u16 t id reg d = .ok resp.result)
      ∧ ∀ e, t { id := id, reg := reg, data := u16_as_u64 d, size := 2 } = .error e → write_reg_u16 t id reg d = .error e)
    ∧ (∀ (t : WriteRegURequest → Except Status WriteRegUResponse) (id reg d : Nat),
      (∀ resp, t { id := id, reg := reg, data := u32_as_u64 d, size := 4 } = .ok resp →
        write_reg_u32 t id reg d = .ok resp.result)
      ∧ ∀ e, t { id := id, reg := reg, data := u32_as_u64 d, size := 4 } = .error e → write_reg_u32 t id reg d = .error e)
    ∧ (∀ (t : WriteRegURequest → Except Status WriteRegUResponse) (id reg d : Nat),
      (∀ resp, t { id := id, reg := reg, data := d, size := 8 } = .ok resp →
        write_reg_u64 t id reg d = .ok resp.result)
      ∧ ∀ e, t { id := id, reg := reg, data := d, size := 8 } = .error e → write_reg_u64 t id reg d = .error e)
    ∧ (∀ (t : WriteRegIRequest → Except Status WriteRegIResponse) (id reg : Nat) (d : Int) (size : Nat),
      (∀ resp, t { id := id, reg := reg, data := d, size := size } = .ok resp →
        write_reg_i t id reg d size = .ok resp.result)
      ∧ ∀ e, t { id := id, reg := reg, data := d, size := size } = .error e → write_reg_i t id reg d size = .error e)
    ∧ (∀ (t : WriteRegIRequest → Except Status WriteRegIResponse) (id reg : Nat) (d : Int),
      (∀ resp, t { id := id, reg := reg, data := i8_as_i64 d, size := 1 } = .ok resp →
        write_reg_i8 t id reg d = .ok resp.result)
      ∧ ∀ e, t { id := id, reg := reg, data := i8_as_i64 d, size := 1 } = .error e → write_reg_i8 t id reg d = .error e)
    ∧ (∀ (t : WriteRegIRequest → Except Status WriteRegIResponse) (id reg : Nat) (d : Int),
      (∀ resp, t { id := id, reg := reg, data := i16_as_i64 d, size := 2 } = .ok resp →
        write_reg_i16 t id reg d = .ok resp.result)
      ∧ ∀ e, t { id := id, reg := reg, data := i16_as_i64 d, size := 2 } = .error e → write_reg_i16 t id reg d = .error e)
    ∧ (∀ (t : WriteRegIRequest → Except Status WriteRegIResponse) (id reg : Nat) (d : Int),
      (∀ resp, t { id := id, reg := reg, data := i32_as_i64 d, size := 4 } = .ok resp →
        write_reg_i32 t id reg d = .ok resp.result)
      ∧ ∀ e, t { id := id, reg := reg, data := i32_as_i64 d, size := 4 } = .error e → write_reg_i32 t id reg d = .error e)
    ∧ (∀ (t : WriteRegIRequest → Except Status WriteRegIResponse) (id reg : Nat) (d : Int),
      (∀ resp, t { id := id, reg := reg, data := d, size := 8 } = .ok resp →
        write_reg_i64 t id reg d = .ok resp.result)
      ∧ ∀ e, t { id := id, reg := reg, data := d, size := 8 } = .error e → write_reg_i64 t id reg d = .error e)
    ∧ (∀ (t : ReadRegRequest → Except Status ReadRegUResponse) (id reg size : Nat),
      (∀ resp, t { id := id, reg := reg, size := size } = .ok resp →
        read_reg_u t id reg size = .ok (resp.result, resp.data))
      ∧ ∀ e, t { id := id, reg := reg, size := size } = .error e → read_reg_u t id reg size = .error e)
    ∧ (∀ (t : ReadRegRequest → Except Status ReadRegUResponse) (id reg : Nat),
      (∀ resp, t { id := id, reg := reg, size := 1 } = .ok resp →
        read_reg_u8 t id reg = .ok (resp.result, u64_as_u8 resp.data))
      ∧ ∀ e, t { id := id, reg := reg, size := 1 } = .error e → read_reg_u8 t id reg = .error e)
    ∧ (∀ (t : ReadRegRequest → Except Status ReadRegUResponse) (id reg : Nat),
      (∀ resp, t { id := id, reg := reg, size := 2 } = .ok resp →
        read_reg_u16 t id reg = .ok (resp.result, u64_as_u16 resp.data))
      ∧ ∀ e, t { id := id, reg := reg, size := 2 } = .error e → read_reg_u16 t id reg = .error e)
    ∧ (∀ (t : ReadRegRequest → Except Status ReadRegUResponse) (id reg : Nat),
      (∀ resp, t { id := id, reg := reg, size := 4 } = .ok resp →
        read_reg_u32 t id reg = .ok (resp.result, u64_as_u32 resp.data))
      ∧ ∀ e, t { id := id, reg := reg, size := 4 } = .error e → read_reg_u32 t id reg = .error e)
    ∧ (∀ (t : ReadRegRequest → Except Status ReadRegUResponse) (id reg : Nat),
      (∀ resp, t { id := id, reg := reg, size := 8 } = .ok resp →
        read_reg_u64 t id reg = .ok (resp.result, resp.data))
      ∧ ∀ e, t { id := id, reg := reg, size := 8 } = .error e → read_reg_u64 t id reg = .error e)
    ∧ (∀ (t : ReadRegRequest → Except Status ReadRegIResponse) (id reg size : Nat),
      (∀ resp, t { id := id, reg := reg, size := size } = .ok resp →
        read_reg_i t id reg size = .ok (resp.result, resp.data))
      ∧ ∀ e, t { id := id, reg := reg, size := size } = .error e → read_reg_i t id reg size = .error e)
    ∧ (∀ (t : ReadRegRequest → Except Status ReadRegIResponse) (id reg : Nat),
      (∀ resp, t { id := id, reg := reg, size := 1 } = .ok resp →
        read_reg_i8 t id reg = .ok (resp.result, i64_as_i8 resp.data))
      ∧ ∀ e, t { id := id, reg := reg, size := 1 } = .error e → read_reg_i8 t id reg = .error e)
    ∧ (∀ (t : ReadRegRequest → Except Status ReadRegIResponse) (id reg : Nat),
      (∀ resp, t { id := id, reg := reg, size := 2 } = .ok resp →
        read_reg_i16 t id reg = .ok (resp.result, i64_as_i16 resp.data))
      ∧ ∀ e, t { id := id, reg := reg, size := 2 } = .error e → read_reg_i16 t id reg = .error e)
    ∧ (∀ (t : ReadRegRequest → Except Status ReadRegIResponse) (id reg : Nat),
      (∀ resp, t { id := id, reg := reg, size := 4 } = .ok resp →
        read_reg_i32 t id reg = .ok (resp.result, i64_as_i32 resp.data))
      ∧ ∀ e, t { id := id, reg := reg, size := 4 } = .error e → read_reg_i32 t id reg = .error e)
    ∧ (∀ (t : ReadRegRequest → Except Status ReadRegIResponse) (id reg : Nat),
      (∀ resp, t { id := id, reg := reg, size := 8 } = .ok resp →
        read_reg_i64 t id reg = .ok (resp.result, resp.data))
      ∧ ∀ e, t { id := id, reg := reg, size := 8 } = .error e → read_reg_i64 t id reg = .error e)
    ∧ (∀ (t : WriteMemF32Request → Except Status WriteMemF32Response) (id offset : Nat) (d : F32Bits),
      (∀ resp, t { id := id, offset := offset, data := d } = .ok resp →
        write_mem_f32 t id offset d = .ok resp.result)
      ∧ ∀ e, t { id := id, offset := offset, data := d } = .error e → write_mem_f32 t id offset d = .error e)
    ∧ (∀ (t : WriteMemF64Request → Except Status WriteMemF64Response) (id offset : Nat) (d : F64Bits),
      (∀ resp, t { id := id, offset := offset, data := d } = .ok resp →
        write_mem_f64 t id offset d = .ok resp.result)
      ∧ ∀ e, t { id := id, offset := offset, data := d } = .error e → write_mem_f64 t id offset d = .error e)
    ∧ (∀ (t : ReadMemRequest → Except Status ReadMemF32Response) (id offset : Nat),
      (∀ resp, t { id := id, offset := offset, size := 4 } = .ok resp →
        read_mem_f32 t id offset = .ok (resp.result, resp.data))
      ∧ ∀ e, t { id := id, offset := offset, size := 4 } = .error e → read_mem_f32 t id offset = .error e)
    ∧ (∀ (t : ReadMemRequest → Except Status ReadMemF64Response) (id offset : Nat),
      (∀ resp, t { id := id, offset := offset, size := 8 } = .ok resp →
        read_mem_f64 t id offset = .ok (resp.result, resp.data))
      ∧ ∀ e, t { id := id, offset := offset, size := 8 } = .error e → read_mem_f64 t id offset = .error e)
    ∧ (∀ (t : WriteRegF32Request → Except Status WriteRegF32Response) (id reg : Nat) (d : F32Bits),
      (∀ resp, t { id := id, reg := reg, data := d } = .ok resp →
        write_reg_f32 t id reg d = .ok resp.result)
      ∧ ∀ e, t { id := id, reg := reg, data := d } = .error e → write_reg_f32 t id reg d = .error e)
    ∧ (∀ (t : WriteRegF64Request → Except Status WriteRegF64Response) (id reg : Nat) (d : F64Bits),
      (∀ resp, t { id := id, reg := reg, data := d } = .ok resp →
        write_reg_f64 t id reg d = .ok resp.result)
      ∧ ∀ e, t { id := id, reg := reg, data := d } = .error e → write_reg_f64 t id reg d = .error e)
    ∧ (∀ (t : ReadRegRequest → Except Status ReadRegF32Response) (id reg : Nat),
      (∀ resp, t { id := id, reg := reg, size := 4 } = .ok resp →
        read_reg_f32 t id reg = .ok (resp.result, resp.data))
      ∧ ∀ e, t { id := id, reg := reg, size := 4 } = .error e → read_reg_f32 t id reg = .error e)
    ∧ (∀ (t : ReadRegRequest → Except Status ReadRegF64Response) (id reg : Nat),
      (∀ resp, t { id := id, reg := reg, size := 8 } = .ok resp →
        read_reg_f64 t id reg = .ok (resp.result, resp.data))
      ∧ ∀ e, t { id := id, reg := reg, size := 8 } = .error e → read_reg_f64 t id reg = .error e)
    ∧ (∀ (t : MemCopyToRequest → Except Status MemCopyToResponse) (id offset : Nat) (data : List Nat),
      (∀ resp, t { id := id, offset := offset, data := data } = .ok resp →
        mem_copy_to t id offset data = .ok resp.result)
      ∧ ∀ e, t { id := id, offset := offset, data := data } = .error e → mem_copy_to t id offset data = .error e)
    ∧ (∀ (t : MemCopyFromRequest → Except Status MemCopyFromResponse) (id offset size : Nat),
      (∀ resp, t { id := id, offset := offset, size := size } = .ok resp →
        mem_copy_from t id offset size = .ok (resp.result, resp.data))
      ∧ ∀ e, t { id := id, offset := offset, size := size } = .error e → mem_copy_from t id offset size = .error e) :=
  ⟨fun t =>
    except_map_axes (t {})
      ResetResponse.result,
   fun t name =>
    ⟨fun slot h => by simp [load, h, Except.map],
     fun resp h => by simp [load, h, Except.map],
     fun e h => ⟨by simp [load, h, Except.map], fun p => by simp [load, h, Except.map]⟩⟩,
   fun t slot =>
    except_map_axes (t { slot := slot })
      UnloadResponse.result,
   fun t =>
    except_map_axes (t { slot := 0 })
      UnloadResponse.result,
   fun t name data =>
    except_map_axes (t (upload_firmware_chunks name data))
      UploadFirmwareResponse.result,
   fun fs t name path data hfs => by
    simp only [upload_firmware_file, hfs]
    exact except_map_axes (t (upload_firmware_chunks name data))
      UploadFirmwareResponse.result,
   fun t name =>
    except_map_axes (t { name := name })
      RemoveFirmwareResponse.result,
   fun t name =>
    except_map_axes (t { name := name })
      LoadBitstreamResponse.result,
   fun t name =>
    except_map_axes (t { name := name })
      LoadDtboResponse.result,
   fun t dts =>
    except_map_axes (t { dts := dts })
      (fun inner => (inner.result, inner.dtb)),
   fun t bitstream_name bin_name arch =>
    except_map_axes (t { bitstream_name := bitstream_name, bin_name := bin_name, arch := arch })
      BitstreamToBinResponse.result,
   fun t path offset size unit =>
    except_map_axes (t { path := path, offset := offset, size := size, unit := unit })
      (fun inner => (inner.result, inner.id)),
   fun t name unit =>
    except_map_axes (t { name := name, unit := unit })
      (fun inner => (inner.result, inner.id)),
   fun t name cache_enable unit =>
    except_map_axes (t { name := name, cache_enable := cache_enable, unit := unit })
      (fun inner => (inner.result, inner.id)),
   fun t id =>
    except_map_axes (t { id := id })
      CloseResponse.result,
   fun t id offset size unit =>
    except_map_axes (t { id := id, offset := offset, size := size, unit := unit })
      (fun inner => (inner.result, inner.id)),
   fun t id =>
    except_map_axes (t { id := id })
      (fun inner => (inner.result, inner.addr)),
   fun t id =>
    except_map_axes (t { id := id })
      (fun inner => (inner.result, inner.size)),
   fun t id =>
    except_map_axes (t { id := id })
      (fun inner => (inner.result, inner.phys_addr)),
   fun t id offset d size =>
    except_map_axes (t { id := id, offset := offset, data := d, size := size })
      WriteMemUResponse.result,
   fun t id offset d =>
    except_map_axes (t { id := id, offset := offset, data := u8_as_u64 d, size := 1 })
      WriteMemUResponse.result,
   fun t id offset d =>
    except_map_axes (t { id := id, offset := offset, data := u16_as_u64 d, size := 2 })
      WriteMemUResponse.result,
   fun t id offset d =>
    except_map_axes (t { id := id, offset := offset, data := u32_as_u64 d, size := 4 })
      WriteMemUResponse.result,
   fun t id offset d =>
    except_map_axes (t { id := id, offset := offset, data := d, size := 8 })
      WriteMemUResponse.result,
   fun t id offset d size =>
    except_map_axes (t { id := id, offset := offset, data := d, size := size })
      WriteMemIResponse.result,
   fun t id offset d =>
    except_map_axes (t { id := id, offset := offset, data := i8_as_i64 d, size := 1 })
      WriteMemIResponse.result,
   fun t id offset d =>
    except_map_axes (t { id := id, offset := offset, data := i16_as_i64 d, size := 2 })
      WriteMemIResponse.result,
   fun t id offset d =>
    except_map_axes (t { id := id, offset := offset, data := i32_as_i64 d, size := 4 })
      WriteMemIResponse.result,
   fun t id offset d =>
    except_map_axes (t { id := id, offset := offset, data := d, size := 8 })
      WriteMemIResponse.result,
   fun t id offset size =>
    except_map_axes (t { id := id, offset := offset, size := size })
      (fun inner => (inner.result, inner.data)),
   fun t id offset =>
    except_map2_axes (t { id := id, offset := offset, size := 1 })
      (fun inner => (inner.result, inner.data)) (fun p => (p.1, u64_as_u8 p.2)),
   fun t id offset =>
    except_map2_axes (t { id := id, offset := offset, size := 2 })
      (fun inner => (inner.result, inner.data)) (fun p => (p.1, u64_as_u16 p.2)),
   fun t id offset =>
    except_map2_axes (t { id := id, offset := offset, size := 4 })
      (fun inner => (inner.result, inner.data)) (fun p => (p.1, u64_as_u32 p.2)),
   fun t id offset =>
    except_map_axes (t { id := id, offset := offset, size := 8 })
      (fun inner => (inner.result, inner.data)),
   fun t id offset size =>
    except_map_axes (t { id := id, offset := offset, size := size })
      (fun inner => (inner.result, inner.data)),
   fun t id offset =>
    except_map2_axes (t { id := id, offset := offset, size := 1 })
      (fun inner => (inner.result, inner.data)) (fun p => (p.1, i64_as_i8 p.2)),
   fun t id offset =>
    except_map2_axes (t { id := id, offset := offset, size := 2 })
      (fun inner => (inner.result, inner.data)) (fun p => (p.1, i64_as_i16 p.2)),
   fun t id offset =>
    except_map2_axes (t { id := id, offset := offset, size := 4 })
      (fun inner => (inner.result, inner.data)) (fun p => (p.1, i64_as_i32 p.2)),
   fun t id offset =>
    except_map_axes (t { id := id, offset := offset, size := 8 })
      (fun inner => (inner.result, inner.data)),
   fun t id reg d size =>
    except_map_axes (t { id := id, reg := reg, data := d, size := size })
      WriteRegUResponse.result,
   fun t id reg d =>
    except_map_axes (t { id := id, reg := reg, data := u8_as_u64 d, size := 1 })
      WriteRegUResponse.result,
   fun t id reg d =>
    except_map_axes (t { id := id, reg := reg, data := u16_as_u64 d, size := 2 })
      WriteRegUResponse.result,
   fun t id reg d =>
    except_map_axes (t { id := id, reg := reg, data := u32_as_u64 d, size := 4 })
      WriteRegUResponse.result,
   fun t id reg d =>
    except_map_axes (t { id := id, reg := reg, data := d, size := 8 })
      WriteRegUResponse.result,
   fun t id reg d size =>
    except_map_axes (t { id := id, reg := reg, data := d, size := size })
      WriteRegIResponse.result,
   fun t id reg d =>
    except_map_axes (t { id := id, reg := reg, data := i8_as_i64 d, size := 1 })
      WriteRegIResponse.result,
   fun t id reg d =>
    except_map_axes (t { id := id, reg := reg, data := i16_as_i64 d, size := 2 })
      WriteRegIResponse.result,
   fun t id reg d =>
    except_map_axes (t { id := id, reg := reg, data := i32_as_i64 d, size := 4 })
      WriteRegIResponse.result,
   fun t id reg d =>
    except_map_axes (t { id := id, reg := reg, data := d, size := 8 })
      WriteRegIResponse.result,
   fun t id reg size =>
    except_map_axes (t { id := id, reg := reg, size := size })
      (fun inner => (inner.result, inner.data)),
   fun t id reg =>
    except_map2_axes (t { id := id, reg := reg, size := 1 })
      (fun inner => (inner.result, inner.data)) (fun p => (p.1, u64_as_u8 p.2)),
   fun t id reg =>
    except_map2_axes (t { id := id, reg := reg, size := 2 })
      (fun inner => (inner.result, inner.data)) (fun p => (p.1, u64_as_u16 p.2)),
   fun t id reg =>
    except_map2_axes (t { id := id, reg := reg, size := 4 })
      (fun inner => (inner.result, inner.data)) (fun p => (p.1, u64_as_u32 p.2)),
   fun t id reg =>
    except_map_axes (t { id := id, reg := reg, size := 8 })
      (fun inner => (inner.result, inner.data)),
   fun t id reg size =>
    except_map_axes (t { id := id, reg := reg, size := size })
      (fun inner => (inner.result, inner.data)),
   fun t id reg =>
    except_map2_axes (t { id := id, reg := reg, size := 1 })
      (fun inner => (inner.result, inner.data)) (fun p => (p.1, i64_as_i8 p.2)),
   fun t id reg =>
    except_map2_axes (t { id := id, reg := reg, size := 2 })
      (fun inner => (inner.result, inner.data)) (fun p => (p.1, i64_as_i16 p.2)),
   fun t id reg =>
    except_map2_axes (t { id := id, reg := reg, size := 4 })
      (fun inner => (inner.result, inner.data)) (fun p => (p.1, i64_as_i32 p.2)),
   fun t id reg =>
    except_map_axes (t { id := id, reg := reg, size := 8 })
      (fun inner => (inner.result, inner.data)),
   fun t id offset d =>
    except_map_axes (t { id := id, offset := offset, data := d })
      WriteMemF32Response.result,
   fun t id offset d =>
    except_map_axes (t { id := id, offset := offset, data := d })
      WriteMemF64Response.result,
   fun t id offset =>
    except_map_axes (t { id := id, offset := offset, size := 4 })
      (fun inner => (inner.result, inner.data)),
   fun t id offset =>
    except_map_axes (t { id := id, offset := offset, size := 8 })
      (fun inner => (inner.result, inner.data)),
   fun t id reg d =>
    except_map_axes (t { id := id, reg := reg, data := d })
      WriteRegF32Response.result,
   fun t id reg d =>
    except_map_axes (t { id := id, reg := reg, data := d })
      WriteRegF64Response.result,
   fun t id reg =>
    except_map_axes (t { id := id, reg := reg, size := 4 })
      (fun inner => (inner.result, inner.data)),
   fun t id reg =>
    except_map_axes (t { id := id, reg := reg, size := 8 })
      (fun inner => (inner.result, inner.data)),
   fun t id offset data =>
    except_map_axes (t { id := id, offset := offset, data := data })
      MemCopyToResponse.result,
   fun t id offset size =>
    except_map_axes (t { id := id, offset := offset, size := size })
      (fun inner => (inner.result, inner.data))⟩

/-- Witness for C4: a server answering result false with slot -1 makes load
return the normal value (false, -1), and a transport error status surfaces
from reset as that very error. -/
theorem operation_error_axes_witness :
    (fun _ : LoadRequest => (.ok { result := false, slot := -1 } : Except Status LoadResponse))
        { name := "missing_name" }
      = .ok { result := false, slot := -1 }
    ∧ load (fun _ : LoadRequest =>
          (.ok { result := false, slot := -1 } : Except Status LoadResponse))
        ("missing_name")
      = .ok (false, -1)
    ∧ reset (fun _ : ResetRequest =>
          (.error { code := 14, message := "unavailable" } : Except Status ResetResponse))
      = .error { code := 14, message := "unavailable" } :=
  ⟨rfl,
   (operation_error_axes.2.1
      (fun _ : LoadRequest =>
        (.ok { result := false, slot := -1 } : Except Status LoadResponse))
      ("missing_name")).1 (-1) rfl,
   (operation_error_axes.1
      (fun _ : ResetRequest =>
        (.error { code := 14, message := "unavailable" } : Except Status ResetResponse))).2
      { code := 14, message := "unavailable" } rfl⟩

/-- C5: upload_firmware_file reads the whole file and then uploads exactly its
contents; when the read fails it returns the internal-status error built from
the I/O error, which is an error value and never a false result flag, and it
does so independently of the transport: no request reaches the network. -/
theorem upload_firmware_file_io_error
    (fs : String → Except IoError (List Nat))
    (t t2 : List UploadFirmwareRequest → Except Status UploadFirmwareResponse)
    (name path : String) :
    (∀ data : List Nat, fs path = .ok data →
      upload_firmware_file fs t name path = upload_firmware t name data)
    ∧ (∀ e : IoError, fs path = .error e →
      upload_firmware_file fs t name path
          = .error (Status.internal ("Failed to read file " ++ path ++ ": " ++ e.message))
        ∧ upload_firmware_file fs t name path = upload_firmware_file fs t2 name path
        ∧ ∀ b : Bool, upload_firmware_file fs t name path ≠ .ok b) := by
  refine ⟨?_, ?_⟩
  · intro data h
    simp [upload_firmware_file, h]
  · intro e h
    refine ⟨by simp [upload_firmware_file, h], by simp [upload_firmware_file, h], ?_⟩
    intro b
    simp [upload_firmware_file, h]

/-- Witness for C5: a failing file read is surfaced as the internal status
error, identically for two different transports, before any request is sent. -/
theorem upload_firmware_file_io_error_witness :
    (fun _ : String => (.error { message := "no such file" } : Except IoError (List Nat)))
        ("p.bit")
      = .error { message := "no such file" }
    ∧ upload_firmware_file
        (fun _ : String => (.error { message := "no such file" } : Except IoError (List Nat)))
        (fun _ => .ok { result := true }) ("fw2") ("p.bit")
      = .error (Status.internal ("Failed to read file " ++ "p.bit" ++ ": " ++ "no such file"))
    ∧ upload_firmware_file
        (fun _ : String => (.error { message := "no such file" } : Except IoError (List Nat)))
        (fun _ => .ok { result := true }) ("fw2") ("p.bit")
      = upload_firmware_file
          (fun _ : String => (.error { message := "no such file" } : Except IoError (List Nat)))
          (fun _ => .error { code := 14, message := "unavailable" }) ("fw2") ("p.bit") :=
  ⟨rfl,
   ((upload_firmware_file_io_error
      (fun _ : String => (.error { message := "no such file" } : Except IoError (List Nat)))
      (fun _ => .ok { result := true })
      (fun _ => .error { code := 14, message := "unavailable" })
      ("fw2") ("p.bit")).2 { message := "no such file" } rfl).1,
   ((upload_firmware_file_io_error
      (fun _ : String => (.error { message := "no such file" } : Except IoError (List Nat)))
      (fun _ => .ok { result := true })
      (fun _ => .error { code := 14, message := "unavailable" })
      ("fw2") ("p.bit")).2 { message := "no such file" } rfl).2.1⟩

/-- C10: whatever 64-bit value the server returns, the narrowing unsigned read
wrappers reduce it modulo the target width and the signed wrappers
reinterpret its low bytes as twos-complement, in both address spaces, keeping
the result flag unchanged and never producing an error. -/
theorem narrowing_read_truncation
    (tu : ReadMemRequest → Except Status ReadMemUResponse)
    (ti : ReadMemRequest → Except Status ReadMemIResponse)
    (tru : ReadRegRequest → Except Status ReadRegUResponse)
    (tri : ReadRegRequest → Except Status ReadRegIResponse)
    (id offset reg : Nat) (res : Bool) (d : Nat) (di : Int) :
    (tu { id := id, offset := offset, size := 1 } = .ok { result := res, data := d } →
      read_mem_u8 tu id offset = .ok (res, d % 2 ^ 8))
    ∧ (tu { id := id, offset := offset, size := 2 } = .ok { result := res, data := d } →
      read_mem_u16 tu id offset = .ok (res, d % 2 ^ 16))
    ∧ (tu { id := id, offset := offset, size := 4 } = .ok { result := res, data := d } →
      read_mem_u32 tu id offset = .ok (res, d % 2 ^ 32))
    ∧ (ti { id := id, offset := offset, size := 1 } = .ok { result := res, data := di } →
      read_mem_i8 ti id offset = .ok (res, i64_as_i8 di))
    ∧ (ti { id := id, offset := offset, size := 2 } = .ok { result := res, data := di } →
      read_mem_i16 ti id offset = .ok (res, i64_as_i16 di))
    ∧ (ti { id := id, offset := offset, size := 4 } = .ok { result := res, data := di } →
      read_mem_i32 ti id offset = .ok (res, i64_as_i32 di))
    ∧ (tru { id := id, reg := reg, size := 1 } = .ok { result := res, data := d } →
      read_reg_u8 tru id reg = .ok (res, d % 2 ^ 8))
    ∧ (tru { id := id, reg := reg, size := 2 } = .ok { result := res, data := d } →
      read_reg_u16 tru id reg = .ok (res, d % 2 ^ 16))
    ∧ (tru { id := id, reg := reg, size := 4 } = .ok { result := res, data := d } →
      read_reg_u32 tru id reg = .ok (res, d % 2 ^ 32))
    ∧ (tri { id := id, reg := reg, size := 1 } = .ok { result := res, data := di } →
      read_reg_i8 tri id reg = .ok (res, i64_as_i8 di))
    ∧ (tri { id := id, reg := reg, size := 2 } = .ok { result := res, data := di } →
      read_reg_i16 tri id reg = .ok (res, i64_as_i16 di))
    ∧ (tri { id := id, reg := reg, size := 4 } = .ok { result := res, data := di } →
      read_reg_i32 tri id reg = .ok (res, i64_as_i32 di)) := by
  refine ⟨?_, ?_, ?_, ?_, ?_, ?_, ?_, ?_, ?_, ?_, ?_, ?_⟩ <;>
    intro h <;>
    simp [read_mem_u8, read_mem_u16, read_mem_u32, read_mem_i8, read_mem_i16, read_mem_i32,
      read_reg_u8, read_reg_u16, read_reg_u32, read_reg_i8, read_reg_i16, read_reg_i32,
      read_mem_u, read_mem_i, read_reg_u, read_reg_i, h, Except.map,
      u64_as_u8, u64_as_u16, u64_as_u32]

/-- Witness for C10: a server value of 300 read back at width 1 is reduced to
44, and a signed -1 at width 1 stays -1, with the result flag untouched. -/
theorem narrowing_read_truncation_witness :
    (fun _ : ReadMemRequest => (.ok { result := true, data := 300 } : Except Status ReadMemUResponse))
        { id := 0, offset := 0, size := 1 }
      = .ok { result := true, data := 300 }
    ∧ read_mem_u8
        (fun _ : ReadMemRequest => (.ok { result := true, data := 300 } : Except Status ReadMemUResponse))
        0 0
      = .ok (true, 300 % 2 ^ 8)
    ∧ read_mem_i8
        (fun _ : ReadMemRequest => (.ok { result := true, data := -1 } : Except Status ReadMemIResponse))
        0 0
      = .ok (true, i64_as_i8 (-1)) :=
  ⟨rfl,
   (narrowing_read_truncation
      (fun _ : ReadMemRequest => (.ok { result := true, data := 300 } : Except Status ReadMemUResponse))
      (fun _ : ReadMemRequest => (.ok { result := true, data := -1 } : Except Status ReadMemIResponse))
      (fun _ : ReadRegRequest => (.ok { result := true, data := 0 } : Except Status ReadRegUResponse))
      (fun _ : ReadRegRequest => (.ok { result := true, data := 0 } : Except Status ReadRegIResponse))
      0 0 0 true 300 (-1)).1 rfl,
   (narrowing_read_truncation
      (fun _ : ReadMemRequest => (.ok { result := true, data := 300 } : Except Status ReadMemUResponse))
      (fun _ : ReadMemRequest => (.ok { result := true, data := -1 } : Except Status ReadMemIResponse))
      (fun _ : ReadRegRequest => (.ok { result := true, data := 0 } : Except Status ReadRegUResponse))
      (fun _ : ReadRegRequest => (.ok { result := true, data := 0 } : Except Status ReadRegIResponse))
      0 0 0 true 300 (-1)).2.2.2.1 rfl⟩

end JellyFpga
